import Mathlib

/-!
Aggregator (aggregator/aggregator.go)

A shallow embedding of the aggregator's task registry, the request path
`submitStateHeader`, the dispatch step of `Start`, `sendAggregatedResponseToContract`,
`verifyKey` and `Config.Init`.

Conventions of the embedding.

* Go machine integers are natural numbers; a fixed width is applied where the
  source wraps (`taskIndexSeq` is a `uint32`, a threshold is converted to 8 bits).
* The Go map `taskIndexMap` is an association list with `mapGet`, `mapInsert`, `mapDelete`.
* Collaborators whose code lives outside this file (the BLS aggregation service, the
  contract binding, JSON decoding, `Task.Digest`, the attestation-layer callers) are
  fields of an environment record: a call returns what the environment says, and every
  call is recorded in a call log so that call counts can be stated.
* A Go run-time panic is the return value `Ret.fault`.
-/

namespace Aggregator

/-! ## Basic types -/

/-- An error value, identified with the text returned by its `Error()` method. -/
abbrev Error := String

/-- A `types.TaskResponseDigest` (32 bytes), read as a number. -/
abbrev TaskResponseDigest := Nat

/-- The call `logex.Trace(err, ...)` wraps a non-nil error with call-site information and keeps
its message. -/
def logexTrace (e : Error) : Error := e

/-- The test `strings.Contains(s, substr)`. -/
def stringsContains (s substr : String) : Bool :=
  s.toList.tails.any (fun t => substr.toList.isPrefixOf t)

/-- The value `1 << 32`: `taskIndexSeq` is a `uint32`. -/
def uint32Size : Nat := 4294967296

/-- The run-time panics that the embedded code can raise. -/
inductive Panic where
  | integerDivideByZero
  | indexOutOfRange
  | nilPointerDereference
  deriving DecidableEq

/-- What a call returns: nil, a non-nil error, or a run-time panic. -/
inductive Ret where
  | ok
  | error (e : Error)
  | fault (p : Panic)
  deriving DecidableEq

/-! ## Attestation layers and `verifyKey` -/

/-- An `AttestationLayerClient`, reduced to what `verifyKey` uses of it: the result
`(pass, err)` of `caller.VerifyLivenessProof(nil, x, y)`. -/
structure AttestationLayerClient where
  VerifyLivenessProof : Nat → Nat → Bool × Option Error

/-- The loop of `verifyKey` from layer number `idx` on. The first component is the returned
pair `(bool, error)`, the second the indices of the layers that were called, in call order. -/
def verifyKeyFrom (x y : Nat) : List AttestationLayerClient → Nat → (Bool × Option Error) × List Nat
  | [], _ => ((false, none), [])
  | layer :: rest, idx =>
    match layer.VerifyLivenessProof x y with
    | (_, some err) => ((false, some (logexTrace err)), [idx])
    | (true, none) => ((true, none), [idx])
    | (false, none) =>
      let r := verifyKeyFrom x y rest (idx + 1)
      (r.1, idx :: r.2)

/-- The method `Aggregator.verifyKey`. -/
def verifyKey (attestationLayer : List AttestationLayerClient) (x y : Nat) :
    (Bool × Option Error) × List Nat :=
  verifyKeyFrom x y attestationLayer 0

/-! ## Configuration -/

/-- The fields of `Config` read by the code embedded here. -/
structure Config where
  TimeToExpirySecs : Int
  MinWaitSecs : Int
  Threshold : Nat
  Sampling : Nat
  GenTaskSampling : Nat
  ExecTaskSampling : Nat
  LineaMaxBlock : Int
  deriving DecidableEq

/-- The method `Config.Init`: fills in the defaults in place; its returned error is always nil. -/
def Config.Init (cfg : Config) : Config :=
  let cfg := if cfg.Sampling = 0 then { cfg with Sampling := 2000 } else cfg
  let cfg := if cfg.LineaMaxBlock = 0 then { cfg with LineaMaxBlock := 100 } else cfg
  let cfg := if cfg.ExecTaskSampling = 0 then { cfg with ExecTaskSampling := cfg.Sampling } else cfg
  let cfg := if cfg.GenTaskSampling = 0 then { cfg with GenTaskSampling := cfg.Sampling } else cfg
  cfg

/-! ## Requests, tasks and the registry -/

/-- The fields of the task descriptor `req.Task` that `submitStateHeader` reads or writes. -/
structure StateHeader where
  Identifier : Nat
  Metadata : String
  ReferenceBlockNumber : Nat
  QuorumNumbers : List Nat
  QuorumThresholdPercentages : List Nat
  deriving DecidableEq

/-- A `TaskRequest`: task descriptor, BLS signature and operator id. -/
structure TaskRequest where
  Task : StateHeader
  Signature : Nat
  OperatorId : Nat
  deriving DecidableEq

/-- The decoded `Metadata` of a task; `BatchId` is the only field used. -/
structure Metadata where
  BatchId : Nat
  deriving DecidableEq

/-- The struct `Task`: the request that created it and its index. -/
structure Task where
  state : TaskRequest
  index : Nat
  deriving DecidableEq

/-- The lookup `m[k]` with presence flag folded into the option. -/
def mapGet : List (TaskResponseDigest × Task) → TaskResponseDigest → Option Task
  | [], _ => none
  | (k, v) :: rest, d => if k = d then some v else mapGet rest d

/-- The builtin `delete(m, k)`. -/
def mapDelete : List (TaskResponseDigest × Task) → TaskResponseDigest →
    List (TaskResponseDigest × Task)
  | [], _ => []
  | (k, v) :: rest, d => if k = d then mapDelete rest d else (k, v) :: mapDelete rest d

/-- The assignment `m[k] = v`. -/
def mapInsert (m : List (TaskResponseDigest × Task)) (d : TaskResponseDigest) (v : Task) :
    List (TaskResponseDigest × Task) :=
  (d, v) :: mapDelete m d

/-- The state guarded by `taskMutex`: the sequence counter and the digest-to-task map. -/
structure Registry where
  taskIndexSeq : Nat
  taskIndexMap : List (TaskResponseDigest × Task)
  deriving DecidableEq

/-- The registry of a fresh `Aggregator` (`NewAggregator`): counter zero, empty map. -/
def Registry.new : Registry := { taskIndexSeq := 0, taskIndexMap := [] }

/-! ## Collaborators -/

/-- A `BlsAggregationServiceResponse`. A curve point is a number; the fields that are pointers
in the source are options, `none` being nil: the elements of `NonSignersPubkeysG1` and
`QuorumApksG1`, `SignersApkG2`, and `SignersAggSigG1`, a pointer to a signature that in turn
embeds a pointer to a point. -/
structure BlsAggregationServiceResponse where
  Err : Option Error
  TaskIndex : Nat
  TaskResponseDigest : TaskResponseDigest
  NonSignersPubkeysG1 : List (Option Nat)
  QuorumApksG1 : List (Option Nat)
  SignersApkG2 : Option Nat
  SignersAggSigG1 : Option (Option Nat)
  NonSignerQuorumBitmapIndices : List Nat
  QuorumApkIndices : List Nat
  TotalStakeIndices : List Nat
  NonSignerStakeIndices : List (List Nat)
  deriving DecidableEq

/-- The struct `IBLSSignatureCheckerNonSignerStakesAndSignature` built in lines 426-435 and
handed to `ConfirmState`. -/
structure NonSignerStakesAndSignature where
  NonSignerPubkeys : List Nat
  QuorumApks : List Nat
  ApkG2 : Nat
  Sigma : Nat
  NonSignerQuorumBitmapIndices : List Nat
  QuorumApkIndices : List Nat
  TotalStakeIndices : List Nat
  NonSignerStakeIndices : List (List Nat)
  deriving DecidableEq

/-- The calls into collaborators that the request path and the dispatch step make. -/
inductive Call where
  | Digest (task : StateHeader)
  | InitializeNewTask (taskIndex referenceBlockNumber : Nat)
      (quorumNumbers quorumThresholdPercentages : List Nat) (minWait timeToExpiry : Int)
  | ProcessNewSignature (taskIndex : Nat) (digest : TaskResponseDigest)
      (signature operatorId : Nat)
  | ConfirmState (task : StateHeader)
      (nonSignerStakesAndSignature : NonSignerStakesAndSignature)
  deriving DecidableEq

/-- The answers of the collaborators: `json.Unmarshal` into `Metadata`, `req.Task.Digest()`,
the two entry points of the BLS aggregation service, the contract call `ConfirmState`
(which yields a transaction hash), and `bindings.MultiProverError`, which rewrites the error
of a failed contract call. -/
structure Env where
  Unmarshal : String → Except Error Metadata
  Digest : StateHeader → Except Error TaskResponseDigest
  InitializeNewTask : Nat → Nat → List Nat → List Nat → Int → Int → Option Error
  ProcessNewSignature : Nat → TaskResponseDigest → Nat → Nat → Option Error
  ConfirmState : StateHeader → NonSignerStakesAndSignature → Except Error Nat
  MultiProverError : Error → Error

/-- What a call of `submitStateHeader` leaves behind: the returned value, the registry, the
request (it is passed by pointer and written to) and the collaborator calls made. -/
structure Outcome where
  ret : Ret
  agg : Registry
  req : TaskRequest
  calls : List Call
  deriving DecidableEq

/-! ## `submitStateHeader` -/

/-- The method `Int64()` of a non-negative big integer: its low 64 bits, read as signed. -/
def bigInt64 (n : Nat) : Int :=
  if n % 18446744073709551616 < 9223372036854775808 then ((n % 18446744073709551616 : Nat) : Int)
  else ((n % 18446744073709551616 : Nat) : Int) - 18446744073709551616

/-- The conversion `types.QuorumThresholdPercentage(v)` of a `uint64`: the type is an 8-bit
unsigned integer, so the value is cut to its low 8 bits. -/
def toQuorumThresholdPercentage (v : Nat) : Nat := v % 256

/-- The product `time.Duration(secs) * time.Second`, in 64-bit signed arithmetic. -/
def durationOfSecs (secs : Int) : Int :=
  (secs * 1000000000 + 9223372036854775808) % 18446744073709551616 - 9223372036854775808

/-- The loop of lines 379-382 from position `i` on: `quorumNumbers[i] = qn` and
`quorumThresholdPercentages[i] = Threshold`, each an indexed store into a slice of fixed
length. The result is `none` when a store is out of range (a run-time panic). -/
def fillQuorums (threshold : Nat) :
    List Nat → Nat → List Nat → List Nat → Option (List Nat × List Nat)
  | [], _, quorumNumbers, quorumThresholdPercentages =>
    some (quorumNumbers, quorumThresholdPercentages)
  | qn :: rest, i, quorumNumbers, quorumThresholdPercentages =>
    if i < quorumNumbers.length then
      if i < quorumThresholdPercentages.length then
        fillQuorums threshold rest (i + 1) (quorumNumbers.set i qn)
          (quorumThresholdPercentages.set i (toQuorumThresholdPercentage threshold))
      else none
    else none

/-- Lines 377-382: both slices are made with `make`, the first as long as
`req.Task.QuorumNumbers`, the second as long as `req.Task.QuorumThresholdPercentages`, and
then filled by the loop over `req.Task.QuorumNumbers`. -/
def buildQuorums (cfg : Config) (task : StateHeader) : Option (List Nat × List Nat) :=
  fillQuorums cfg.Threshold task.QuorumNumbers 0
    (List.replicate task.QuorumNumbers.length 0)
    (List.replicate task.QuorumThresholdPercentages.length 0)

/-- The result of the section of `submitStateHeader` that holds `taskMutex`. -/
structure Registered where
  agg : Registry
  task : Task
  ok : Bool
  err : Option Error
  calls : List Call
  deriving DecidableEq

/-- Lines 387-399, the section under `taskMutex`: look the digest up (`task, ok := ...`); if
it is absent, create the task with index `taskIndexSeq`, store it, increment the counter and
call `InitializeNewTask`. -/
def registerLocked (env : Env) (agg : Registry) (digest : TaskResponseDigest)
    (req : TaskRequest) (quorumNumbers quorumThresholdPercentages : List Nat)
    (minWait timeToExpiry : Int) : Registered :=
  match mapGet agg.taskIndexMap digest with
  | some task => { agg := agg, task := task, ok := true, err := none, calls := [] }
  | none =>
    let task : Task := { state := req, index := agg.taskIndexSeq }
    { agg := { taskIndexSeq := (agg.taskIndexSeq + 1) % uint32Size,
               taskIndexMap := mapInsert agg.taskIndexMap digest task },
      task := task,
      ok := false,
      err := env.InitializeNewTask task.index req.Task.ReferenceBlockNumber quorumNumbers
        quorumThresholdPercentages minWait timeToExpiry,
      calls := [Call.InitializeNewTask task.index req.Task.ReferenceBlockNumber quorumNumbers
        quorumThresholdPercentages minWait timeToExpiry] }

/-- Lines 387-410: the locked section, the check of the error of `InitializeNewTask`, and
`ProcessNewSignature` with its "already completed" filter. -/
def registerAndProcess (env : Env) (agg : Registry) (digest : TaskResponseDigest)
    (req : TaskRequest) (quorumNumbers quorumThresholdPercentages : List Nat)
    (minWait timeToExpiry : Int) : Outcome :=
  let r := registerLocked env agg digest req quorumNumbers quorumThresholdPercentages
    minWait timeToExpiry
  match r.err with
  | some err => { ret := Ret.error (logexTrace err), agg := r.agg, req := req, calls := r.calls }
  | none =>
    let calls := r.calls ++
      [Call.ProcessNewSignature r.task.index digest req.Signature req.OperatorId]
    match env.ProcessNewSignature r.task.index digest req.Signature req.OperatorId with
    | some err =>
      if !stringsContains err "already completed" then
        { ret := Ret.error (logexTrace err), agg := r.agg, req := req, calls := calls }
      else { ret := Ret.ok, agg := r.agg, req := req, calls := calls }
    | none => { ret := Ret.ok, agg := r.agg, req := req, calls := calls }

/-- Lines 372-410: everything after the sampling test. -/
def submitAfterSampling (env : Env) (cfg : Config) (agg : Registry) (req : TaskRequest) :
    Outcome :=
  match env.Digest req.Task with
  | Except.error err =>
    { ret := Ret.error (logexTrace err), agg := agg, req := req, calls := [Call.Digest req.Task] }
  | Except.ok digest =>
    match buildQuorums cfg req.Task with
    | none =>
      { ret := Ret.fault Panic.indexOutOfRange, agg := agg, req := req,
        calls := [Call.Digest req.Task] }
    | some (quorumNumbers, quorumThresholdPercentages) =>
      let req1 : TaskRequest :=
        { req with Task :=
            { req.Task with QuorumThresholdPercentages := quorumThresholdPercentages } }
      let r := registerAndProcess env agg digest req1 quorumNumbers quorumThresholdPercentages
        (durationOfSecs cfg.MinWaitSecs) (durationOfSecs cfg.TimeToExpirySecs)
      { r with calls := Call.Digest req.Task :: r.calls }

/-- The method `Aggregator.submitStateHeader`. -/
def submitStateHeader (env : Env) (cfg : Config) (agg : Registry) (req : TaskRequest) :
    Outcome :=
  if bigInt64 req.Task.Identifier = 1 then
    match env.Unmarshal req.Task.Metadata with
    | Except.error err => { ret := Ret.error (logexTrace err), agg := agg, req := req, calls := [] }
    | Except.ok md =>
      if md.BatchId > 0 then
        if cfg.ExecTaskSampling = 0 then
          { ret := Ret.fault Panic.integerDivideByZero, agg := agg, req := req, calls := [] }
        else if md.BatchId % cfg.ExecTaskSampling ≠ 0 then
          { ret := Ret.ok, agg := agg, req := req, calls := [] }
        else submitAfterSampling env cfg agg req
      else submitAfterSampling env cfg agg req
  else submitAfterSampling env cfg agg req

/-! ## The dispatch step of `Start` -/

/-- The helper `bindings.ConvertToBN254G1Point`: it reads the coordinates of the point it is
given, so a nil point is a nil pointer dereference (`none`); the point is taken over as it
is. -/
def ConvertToBN254G1Point (input : Option Nat) : Option Nat := input

/-- The helper `bindings.ConvertToBN254G2Point`, which reads its point in the same way. -/
def ConvertToBN254G2Point (input : Option Nat) : Option Nat := input

/-- The loops of lines 418-425: every point of the slice is converted and appended; `none`
when a conversion panics. -/
def convertPoints : List (Option Nat) → List Nat → Option (List Nat)
  | [], converted => some converted
  | point :: rest, converted =>
    match ConvertToBN254G1Point point with
    | none => none
    | some p => convertPoints rest (converted ++ [p])

/-- Lines 418-435: the two loops and the struct literal, whose fields are evaluated in order.
`ApkG2` converts `SignersApkG2`; `Sigma` reads the field `G1Point` of `SignersAggSigG1`, a nil
pointer dereference when the response has no signature, and converts it. The result is
`none` when one of these panics. -/
def buildNonSignerStakesAndSignature (blsAggServiceResp : BlsAggregationServiceResponse) :
    Option NonSignerStakesAndSignature :=
  match convertPoints blsAggServiceResp.NonSignersPubkeysG1 [] with
  | none => none
  | some nonSignerPubkeys =>
    match convertPoints blsAggServiceResp.QuorumApksG1 [] with
    | none => none
    | some quorumApks =>
      match ConvertToBN254G2Point blsAggServiceResp.SignersApkG2 with
      | none => none
      | some apkG2 =>
        match blsAggServiceResp.SignersAggSigG1 with
        | none => none
        | some g1Point =>
          match ConvertToBN254G1Point g1Point with
          | none => none
          | some sigma =>
            some { NonSignerPubkeys := nonSignerPubkeys,
                   QuorumApks := quorumApks,
                   ApkG2 := apkG2,
                   Sigma := sigma,
                   NonSignerQuorumBitmapIndices :=
                     blsAggServiceResp.NonSignerQuorumBitmapIndices,
                   QuorumApkIndices := blsAggServiceResp.QuorumApkIndices,
                   TotalStakeIndices := blsAggServiceResp.TotalStakeIndices,
                   NonSignerStakeIndices := blsAggServiceResp.NonSignerStakeIndices }

/-- The method `sendAggregatedResponseToContract`, up to the return after `ConfirmState`; the
receipt poll it detaches makes no further contract call. After the check of `Err` the
argument struct is built (lines 418-435), which panics on a nil point or signature. The task
is a pointer and may be nil; reading `task.state` of a nil task is a run-time panic, raised
while the arguments of `ConfirmState` are evaluated (line 437). -/
def sendAggregatedResponseToContract (env : Env) (task : Option Task)
    (blsAggServiceResp : BlsAggregationServiceResponse) : Ret × List Call :=
  match blsAggServiceResp.Err with
  | some err => (Ret.error (logexTrace err), [])
  | none =>
    match buildNonSignerStakesAndSignature blsAggServiceResp with
    | none => (Ret.fault Panic.nilPointerDereference, [])
    | some nonSignerStakesAndSignature =>
      match task with
      | none => (Ret.fault Panic.nilPointerDereference, [])
      | some t =>
        match env.ConfirmState t.state.Task nonSignerStakesAndSignature with
        | Except.error err =>
          (Ret.error (logexTrace (env.MultiProverError err)),
            [Call.ConfirmState t.state.Task nonSignerStakesAndSignature])
        | Except.ok _ =>
          (Ret.ok, [Call.ConfirmState t.state.Task nonSignerStakesAndSignature])

/-- What one turn of the dispatch loop leaves behind. -/
structure Dispatched where
  ret : Ret
  agg : Registry
  task : Option Task
  calls : List Call
  deriving DecidableEq

/-- Lines 345-348, the section of `Start` under `taskMutex`: read `taskIndexMap[digest]` (nil
when absent) and delete the entry. -/
def removeLocked (agg : Registry) (digest : TaskResponseDigest) : Registry × Option Task :=
  ({ agg with taskIndexMap := mapDelete agg.taskIndexMap digest },
    mapGet agg.taskIndexMap digest)

/-- One turn of the loop of `Start` on a response (lines 344-352): the locked lookup and
delete, then task and response are handed to `sendAggregatedResponseToContract`; a returned
error is only logged. -/
def dispatchStep (env : Env) (agg : Registry) (response : BlsAggregationServiceResponse) :
    Dispatched :=
  let r := removeLocked agg response.TaskResponseDigest
  let s := sendAggregatedResponseToContract env r.2 response
  { ret := s.1, agg := r.1, task := r.2, calls := s.2 }

/-! ## Sequences of registry operations -/

/-- One critical section on the registry: a registration (the locked section of
`submitStateHeader`, with the collaborator answers in force at that call) or a removal (the
locked section of `Start`). -/
inductive RegistryOp where
  | register (env : Env) (digest : TaskResponseDigest) (req : TaskRequest)
      (quorumNumbers quorumThresholdPercentages : List Nat) (minWait timeToExpiry : Int)
  | remove (digest : TaskResponseDigest)

/-- Runs critical sections one after the other. Besides the final registry it returns, in
order, the pair (digest, index) of every registration that created a task. -/
def runOps : Registry → List RegistryOp → Registry × List (TaskResponseDigest × Nat)
  | agg, [] => (agg, [])
  | agg, RegistryOp.register env digest req qn qtp minWait timeToExpiry :: ops =>
    let r := registerLocked env agg digest req qn qtp minWait timeToExpiry
    let rest := runOps r.agg ops
    (rest.1, if r.ok then rest.2 else (digest, r.task.index) :: rest.2)
  | agg, RegistryOp.remove digest :: ops => runOps (removeLocked agg digest).1 ops

/-- The sequence "register `digest`, remove `digest`", `k` times over. -/
def registerRemoveCycles (env : Env) (digest : TaskResponseDigest) (req : TaskRequest) :
    Nat → List RegistryOp
  | 0 => []
  | k + 1 =>
    RegistryOp.register env digest req [] [] 0 0 :: RegistryOp.remove digest ::
      registerRemoveCycles env digest req k

/-! ## Sample data -/

/-- Collaborators that accept everything; the digest of a task is its reference block
number. -/
def acceptAll : Env where
  Unmarshal := fun _ => Except.ok { BatchId := 0 }
  Digest := fun task => Except.ok task.ReferenceBlockNumber
  InitializeNewTask := fun _ _ _ _ _ _ => none
  ProcessNewSignature := fun _ _ _ _ => none
  ConfirmState := fun _ _ => Except.ok 0
  MultiProverError := fun err => err

/-- A request for the task with reference block number (and so, under `acceptAll`, digest) `d`,
one quorum and one threshold entry. -/
def sampleRequest (d : Nat) : TaskRequest where
  Task := { Identifier := 0, Metadata := "", ReferenceBlockNumber := d, QuorumNumbers := [0],
            QuorumThresholdPercentages := [0] }
  Signature := 11
  OperatorId := 3

/-- Register digest 7 and remove it, `1 << 32` times over, then register digest 8. -/
def wrapAroundOps : List RegistryOp :=
  registerRemoveCycles acceptAll 7 (sampleRequest 7) uint32Size ++
    [RegistryOp.register acceptAll 8 (sampleRequest 8) [] [] 0 0]

/-- Layers: failure, pass, and a third that would return an error. -/
def passAtSecond : List AttestationLayerClient :=
  [ { VerifyLivenessProof := fun _ _ => (false, none) },
    { VerifyLivenessProof := fun _ _ => (true, none) },
    { VerifyLivenessProof := fun _ _ => (false, some "unreachable") } ]

/-- Layers: failure, a transport error, and a third that would pass. -/
def errorAtSecond : List AttestationLayerClient :=
  [ { VerifyLivenessProof := fun _ _ => (false, none) },
    { VerifyLivenessProof := fun _ _ => (false, some "connection refused") },
    { VerifyLivenessProof := fun _ _ => (true, none) } ]

/-- A configuration: threshold 67, execution tasks sampled one in four. -/
def sampleConfig : Config where
  TimeToExpirySecs := 60
  MinWaitSecs := 5
  Threshold := 67
  Sampling := 2000
  GenTaskSampling := 2000
  ExecTaskSampling := 4
  LineaMaxBlock := 100

/-- Collaborators as in `acceptAll`, except that `ProcessNewSignature` rejects every signature
with the given message. -/
def rejectSignature (msg : Error) : Env :=
  { acceptAll with ProcessNewSignature := fun _ _ _ _ => some msg }

/-- Collaborators as in `acceptAll`, except that `Digest` fails. -/
def rejectDigest : Env :=
  { acceptAll with Digest := fun _ => Except.error "malformed task" }

/-- Collaborators as in `acceptAll`, except that the metadata of every task decodes to batch
id `b`. -/
def batchEnv (b : Nat) : Env :=
  { acceptAll with Unmarshal := fun _ => Except.ok { BatchId := b } }

/-- Collaborators as in `acceptAll`, except that the contract call fails. -/
def rejectConfirm : Env :=
  { acceptAll with ConfirmState := fun _ _ => Except.error "execution reverted" }

/-- A configuration as it is before `Config.Init`, with every sampling divisor left at zero. -/
def zeroConfig : Config where
  TimeToExpirySecs := 60
  MinWaitSecs := 5
  Threshold := 67
  Sampling := 0
  GenTaskSampling := 0
  ExecTaskSampling := 0
  LineaMaxBlock := 0

/-- A request of the task class with identifier 1, for the task with reference block number
`d`. -/
def execRequest (d : Nat) : TaskRequest :=
  { sampleRequest d with Task := { (sampleRequest d).Task with Identifier := 1 } }

/-- A request with the given quorum numbers and threshold percentages. -/
def quorumRequest (d : Nat) (quorumNumbers quorumThresholdPercentages : List Nat) :
    TaskRequest :=
  { sampleRequest d with
    Task := { (sampleRequest d).Task with
      QuorumNumbers := quorumNumbers,
      QuorumThresholdPercentages := quorumThresholdPercentages } }

/-- A response without error for the task with digest `d`, with every point and the
signature present. -/
def successResponse (d : TaskResponseDigest) : BlsAggregationServiceResponse where
  Err := none
  TaskIndex := 0
  TaskResponseDigest := d
  NonSignersPubkeysG1 := [some 21]
  QuorumApksG1 := [some 22]
  SignersApkG2 := some 23
  SignersAggSigG1 := some (some 24)
  NonSignerQuorumBitmapIndices := [1]
  QuorumApkIndices := [2]
  TotalStakeIndices := [3]
  NonSignerStakeIndices := [[4]]

/-- The struct built from `successResponse d`. -/
def successProof : NonSignerStakesAndSignature where
  NonSignerPubkeys := [21]
  QuorumApks := [22]
  ApkG2 := 23
  Sigma := 24
  NonSignerQuorumBitmapIndices := [1]
  QuorumApkIndices := [2]
  TotalStakeIndices := [3]
  NonSignerStakeIndices := [[4]]

/-- A response that carries an error, for the task with digest `d`; its points and its
signature are nil. -/
def failedResponse (d : TaskResponseDigest) : BlsAggregationServiceResponse where
  Err := some "task expired"
  TaskIndex := 0
  TaskResponseDigest := d
  NonSignersPubkeysG1 := []
  QuorumApksG1 := []
  SignersApkG2 := none
  SignersAggSigG1 := none
  NonSignerQuorumBitmapIndices := []
  QuorumApkIndices := []
  TotalStakeIndices := []
  NonSignerStakeIndices := []

/-- A response without error whose signature pointer is nil. -/
def unsignedResponse (d : TaskResponseDigest) : BlsAggregationServiceResponse :=
  { successResponse d with SignersAggSigG1 := none }

/-- A registry that holds one task, for digest 7 with index 0. -/
def oneTask : Registry where
  taskIndexSeq := 1
  taskIndexMap := [(7, { state := sampleRequest 7, index := 0 })]

/-! ## The aggregation engine, from the specification -/

/-- Modelled from the spec: the text of `UnknownTaskError`. The code of the aggregation engine
is not in aggregator.go. By section 4.3 its `ProcessNewSignature` fails with this one error
"if the task is unknown or already completed", and line 406 of `submitStateHeader` recognises
the error by the words "already completed" in its text. -/
def unknownTaskError : Error := "task not initialized or already completed"

/-- Modelled from the spec: the text of `UnknownOperatorError` (section 4.3), the failure for
an operator that is "not a member of any required quorum". -/
def unknownOperatorError : Error := "operator is not part of the task quorums"

/-- Modelled from the spec: the text of `SignatureVerificationError` (section 4.3), the failure
of the pairing check of a signature. -/
def signatureVerificationError : Error := "signature verification failed"

/-- Modelled from the spec: what `ProcessNewSignature` reads of the state of the aggregation
engine (section 4.3): the task indices that were initialized, those that have completed or
expired, the operators of the required quorums of a task, and the outcome of the pairing
check of a signature against digest and operator. -/
structure Engine where
  initialized : List Nat
  completed : List Nat
  members : Nat → List Nat
  verifies : TaskResponseDigest → Nat → Nat → Bool

/-- Modelled from the spec: the failures of `ProcessNewSignature` (section 4.3), in the order
in which the specification lists them: `UnknownTaskError` "if the task is unknown or already
completed", `UnknownOperatorError` for an operator outside the required quorums,
`SignatureVerificationError` when the pairing check fails, and success otherwise. -/
def Engine.ProcessNewSignature (eng : Engine) (taskIndex : Nat) (digest : TaskResponseDigest)
    (signature operatorId : Nat) : Option Error :=
  if taskIndex ∉ eng.initialized ∨ taskIndex ∈ eng.completed then some unknownTaskError
  else if operatorId ∉ eng.members taskIndex then some unknownOperatorError
  else if !eng.verifies digest signature operatorId then some signatureVerificationError
  else none

/-- An engine in which no task was ever initialized; operator 3 is the only member of every
quorum and every signature verifies. -/
def idleEngine : Engine where
  initialized := []
  completed := []
  members := fun _ => [3]
  verifies := fun _ _ _ => true

/-- An engine that holds task 0 and accepts only the signature 11 of operator 3. -/
def collectingEngine : Engine where
  initialized := [0]
  completed := []
  members := fun _ => [3]
  verifies := fun _ signature _ => decide (signature = 11)

/-- Collaborators as in `acceptAll`, except that `InitializeNewTask` fails (the block of the
task is unknown) and `ProcessNewSignature` is answered by the given engine. -/
def engineEnv (eng : Engine) : Env :=
  { acceptAll with
    InitializeNewTask := fun _ _ _ _ _ _ => some "unknown block"
    ProcessNewSignature := eng.ProcessNewSignature }

/-! ## Theorems: `verifyKey` -/

theorem verifyKeyFrom_failing_front (x y : Nat) (pre rest : List AttestationLayerClient)
    (k : Nat) (hpre : ∀ l ∈ pre, l.VerifyLivenessProof x y = (false, none)) :
    verifyKeyFrom x y (pre ++ rest) k =
      ((verifyKeyFrom x y rest (k + pre.length)).1,
        List.range' k pre.length ++ (verifyKeyFrom x y rest (k + pre.length)).2) := by
  induction pre generalizing k with
  | nil => simp
  | cons l pre ih =>
    have hl : l.VerifyLivenessProof x y = (false, none) := hpre l (List.mem_cons_self _ _)
    have hrest : ∀ l' ∈ pre, l'.VerifyLivenessProof x y = (false, none) :=
      fun l' h => hpre l' (List.mem_cons_of_mem _ h)
    have hk : k + 1 + pre.length = k + (pre.length + 1) := by omega
    show verifyKeyFrom x y (l :: (pre ++ rest)) k = _
    simp only [verifyKeyFrom, hl]
    rw [ih (k + 1) hrest, hk]
    simp [List.range'_succ]

theorem split_at_layer (layers : List AttestationLayerClient) (i : Nat)
    (l : AttestationLayerClient) (h : layers[i]? = some l) :
    layers = layers.take i ++ l :: layers.drop (i + 1) ∧ (layers.take i).length = i := by
  have hi : i < layers.length := by
    by_contra hc
    rw [List.getElem?_eq_none (by omega)] at h
    exact Option.noConfusion h
  have hget : layers[i] = l := by
    rw [List.getElem?_eq_getElem hi] at h
    exact Option.some.inj h
  constructor
  · conv_lhs => rw [← List.take_append_drop i layers]
    rw [List.drop_eq_getElem_cons hi, hget]
  · simp [List.length_take]; omega

theorem verifyKey_at_pass (layers : List AttestationLayerClient) (x y i : Nat)
    (l : AttestationLayerClient) (hl : layers[i]? = some l)
    (hfail : ∀ l' ∈ layers.take i, l'.VerifyLivenessProof x y = (false, none))
    (hpass : l.VerifyLivenessProof x y = (true, none)) :
    verifyKey layers x y = ((true, none), List.range (i + 1)) := by
  obtain ⟨hsplit, hlen⟩ := split_at_layer layers i l hl
  unfold verifyKey
  rw [hsplit, verifyKeyFrom_failing_front x y _ _ 0 hfail, hlen]
  simp only [verifyKeyFrom, hpass, Nat.zero_add]
  rw [List.range_succ, List.range_eq_range']

theorem verifyKey_at_error (layers : List AttestationLayerClient) (x y i : Nat)
    (l : AttestationLayerClient) (e : Error) (hl : layers[i]? = some l)
    (hfail : ∀ l' ∈ layers.take i, l'.VerifyLivenessProof x y = (false, none))
    (herr : (l.VerifyLivenessProof x y).2 = some e) :
    verifyKey layers x y = ((false, some (logexTrace e)), List.range (i + 1)) := by
  obtain ⟨hsplit, hlen⟩ := split_at_layer layers i l hl
  unfold verifyKey
  rw [hsplit, verifyKeyFrom_failing_front x y _ _ 0 hfail, hlen]
  rcases hv : l.VerifyLivenessProof x y with ⟨p, q⟩
  rw [hv] at herr
  simp only at herr
  subst herr
  simp only [verifyKeyFrom, hv, Nat.zero_add]
  rw [List.range_succ, List.range_eq_range']

theorem verifyKeyFrom_false_iff (x y : Nat) (layers : List AttestationLayerClient) (k : Nat) :
    (verifyKeyFrom x y layers k).1 = (false, none) ↔
      ∀ l ∈ layers, l.VerifyLivenessProof x y = (false, none) := by
  induction layers generalizing k with
  | nil => simp [verifyKeyFrom]
  | cons l rest ih =>
    rcases hv : l.VerifyLivenessProof x y with ⟨p, q⟩
    cases q with
    | some e => simp [verifyKeyFrom, hv]
    | none =>
      cases p with
      | true => simp [verifyKeyFrom, hv]
      | false => simp [verifyKeyFrom, hv, ih (k + 1)]

theorem count_range_succ (i j : Nat) :
    (List.range (i + 1)).count j = if j ≤ i then 1 else 0 := by
  by_cases h : j ≤ i
  · rw [if_pos h]
    exact List.count_eq_one_of_mem (List.nodup_range _) (List.mem_range.2 (by omega))
  · rw [if_neg h]
    exact List.count_eq_zero_of_not_mem (fun hm => h (by have := List.mem_range.1 hm; omega))

theorem verifyKey_all_fail_calls (layers : List AttestationLayerClient) (x y : Nat)
    (h : ∀ l ∈ layers, l.VerifyLivenessProof x y = (false, none)) :
    (verifyKey layers x y).2 = List.range layers.length := by
  have := verifyKeyFrom_failing_front x y layers [] 0 h
  rw [List.append_nil] at this
  unfold verifyKey
  rw [this]
  simp [verifyKeyFrom, List.range_eq_range']

/-- C3: when layers `0..i-1` report failure without error and layer `i` reports pass,
`verifyKey` returns `(true, nil)` and the layers called are exactly `0, 1, ..., i`, each once
and in this order; a layer after `i` is called zero times. -/
theorem verifyKey_first_pass (layers : List AttestationLayerClient) (x y i : Nat)
    (l : AttestationLayerClient) (hl : layers[i]? = some l)
    (hfail : ∀ l' ∈ layers.take i, l'.VerifyLivenessProof x y = (false, none))
    (hpass : l.VerifyLivenessProof x y = (true, none)) :
    (verifyKey layers x y).1 = (true, none) ∧
    (verifyKey layers x y).2 = List.range (i + 1) ∧
    ∀ j, (verifyKey layers x y).2.count j = if j ≤ i then 1 else 0 := by
  rw [verifyKey_at_pass layers x y i l hl hfail hpass]
  exact ⟨rfl, rfl, fun j => count_range_succ i j⟩

/-- C3 on three layers (failure, pass, error): the result is true, layers 0 and 1 are called,
layer 2 is not. -/
theorem verifyKey_first_pass_witness :
    (verifyKey passAtSecond 7 9).1 = (true, none) ∧
    (verifyKey passAtSecond 7 9).2 = [0, 1] ∧
    (verifyKey passAtSecond 7 9).2.count 2 = 0 := by
  have h := verifyKey_first_pass passAtSecond 7 9 1 { VerifyLivenessProof := fun _ _ => (true, none) }
    rfl (by intro l' hl'; simp [passAtSecond] at hl'; subst hl'; rfl) rfl
  exact ⟨h.1, h.2.1, h.2.2 2⟩

/-- C4: `verifyKey` returns `(false, nil)` exactly when every configured layer reports failure
without error, and then every layer was called once, in order (for an empty list:
`(false, nil)` and no call). If layer `i` returns an error and the layers before it reported
failure without error, `verifyKey` returns that error with `false`, and the layers called
are `0..i`: no layer after `i` is called. -/
theorem verifyKey_false_iff_all_fail (layers : List AttestationLayerClient) (x y : Nat) :
    ((verifyKey layers x y).1 = (false, none) ↔
      ∀ l ∈ layers, l.VerifyLivenessProof x y = (false, none)) ∧
    ((verifyKey layers x y).1 = (false, none) →
      (verifyKey layers x y).2 = List.range layers.length) ∧
    (verifyKey [] x y = ((false, none), [])) ∧
    (∀ (i : Nat) (l : AttestationLayerClient) (e : Error), layers[i]? = some l →
      (∀ l' ∈ layers.take i, l'.VerifyLivenessProof x y = (false, none)) →
      (l.VerifyLivenessProof x y).2 = some e →
      verifyKey layers x y = ((false, some (logexTrace e)), List.range (i + 1))) := by
  refine ⟨verifyKeyFrom_false_iff x y layers 0, fun h => ?_, rfl, ?_⟩
  · exact verifyKey_all_fail_calls layers x y ((verifyKeyFrom_false_iff x y layers 0).1 h)
  · intro i l e hl hfail herr
    exact verifyKey_at_error layers x y i l e hl hfail herr

/-- C4 on three layers (failure, error, pass): the error of layer 1 is returned and layer 2
is not called. -/
theorem verifyKey_false_iff_all_fail_witness :
    verifyKey errorAtSecond 7 9 = ((false, some "connection refused"), [0, 1]) ∧
    (verifyKey errorAtSecond 7 9).1 ≠ (false, none) :=
  ⟨(verifyKey_false_iff_all_fail errorAtSecond 7 9).2.2.2 1
      { VerifyLivenessProof := fun _ _ => (false, some "connection refused") }
      "connection refused" rfl
      (by intro l' hl'; simp [errorAtSecond] at hl'; subst hl'; rfl) rfl,
    by decide⟩

/-! ## Theorems: the task registry -/

theorem mapDelete_of_absent (m : List (TaskResponseDigest × Task)) (d : TaskResponseDigest)
    (h : mapGet m d = none) : mapDelete m d = m := by
  induction m with
  | nil => rfl
  | cons p rest ih =>
    obtain ⟨k, v⟩ := p
    by_cases hk : k = d
    · simp [mapGet, hk] at h
    · simp only [mapGet, hk, if_false] at h
      simp [mapDelete, hk, ih h]

theorem mapGet_mapDelete_self (m : List (TaskResponseDigest × Task)) (d : TaskResponseDigest) :
    mapGet (mapDelete m d) d = none := by
  induction m with
  | nil => rfl
  | cons p rest ih =>
    obtain ⟨k, v⟩ := p
    by_cases hk : k = d
    · simp [mapDelete, hk, ih]
    · simp [mapDelete, mapGet, hk, ih]

theorem mapGet_mapDelete_other (m : List (TaskResponseDigest × Task))
    (d d' : TaskResponseDigest) (h : d' ≠ d) :
    mapGet (mapDelete m d) d' = mapGet m d' := by
  induction m with
  | nil => rfl
  | cons p rest ih =>
    obtain ⟨k, v⟩ := p
    by_cases hk : k = d
    · have hk' : ¬ k = d' := fun h' => h (h'.symm.trans hk)
      simp only [mapDelete, mapGet, if_pos hk, if_neg hk', ih]
    · by_cases hk' : k = d'
      · simp only [mapDelete, mapGet, if_neg hk, if_pos hk']
      · simp only [mapDelete, mapGet, if_neg hk, if_neg hk', ih]

theorem registerLocked_present (env : Env) (agg : Registry) (digest : TaskResponseDigest)
    (req : TaskRequest) (qn qtp : List Nat) (minWait timeToExpiry : Int) (t : Task)
    (h : mapGet agg.taskIndexMap digest = some t) :
    registerLocked env agg digest req qn qtp minWait timeToExpiry =
      { agg := agg, task := t, ok := true, err := none, calls := [] } := by
  simp [registerLocked, h]

theorem registerLocked_absent (env : Env) (agg : Registry) (digest : TaskResponseDigest)
    (req : TaskRequest) (qn qtp : List Nat) (minWait timeToExpiry : Int)
    (h : mapGet agg.taskIndexMap digest = none) :
    registerLocked env agg digest req qn qtp minWait timeToExpiry =
      { agg := { taskIndexSeq := (agg.taskIndexSeq + 1) % uint32Size,
                 taskIndexMap := (digest, { state := req, index := agg.taskIndexSeq }) ::
                   agg.taskIndexMap },
        task := { state := req, index := agg.taskIndexSeq },
        ok := false,
        err := env.InitializeNewTask agg.taskIndexSeq req.Task.ReferenceBlockNumber qn qtp
          minWait timeToExpiry,
        calls := [Call.InitializeNewTask agg.taskIndexSeq req.Task.ReferenceBlockNumber qn qtp
          minWait timeToExpiry] } := by
  simp [registerLocked, h, mapInsert, mapDelete_of_absent _ _ h]

/-- The indices handed out in a run are the counter values `seq, seq + 1, ...` modulo
`1 << 32`, in order, and the counter ends at `seq` plus the number of tasks created. -/
theorem runOps_indices (ops : List RegistryOp) (agg : Registry)
    (hseq : agg.taskIndexSeq < uint32Size) :
    (runOps agg ops).2.map Prod.snd =
      (List.range (runOps agg ops).2.length).map (fun j => (agg.taskIndexSeq + j) % uint32Size) ∧
    (runOps agg ops).1.taskIndexSeq =
      (agg.taskIndexSeq + (runOps agg ops).2.length) % uint32Size := by
  induction ops generalizing agg with
  | nil => simp [runOps, Nat.mod_eq_of_lt hseq]
  | cons op ops ih =>
    cases op with
    | remove d =>
      simp only [runOps]
      exact ih (removeLocked agg d).1 hseq
    | register env d req qn qtp mw tte =>
      cases hget : mapGet agg.taskIndexMap d with
      | some t =>
        simp only [runOps, registerLocked_present env agg d req qn qtp mw tte t hget, if_true]
        exact ih agg hseq
      | none =>
        simp only [runOps, registerLocked_absent env agg d req qn qtp mw tte hget]
        have hlt : (agg.taskIndexSeq + 1) % uint32Size < uint32Size :=
          Nat.mod_lt _ (by decide)
        obtain ⟨h1, h2⟩ := ih
          { taskIndexSeq := (agg.taskIndexSeq + 1) % uint32Size,
            taskIndexMap := (d, { state := req, index := agg.taskIndexSeq }) ::
              agg.taskIndexMap } hlt
        simp only at h1 h2
        constructor
        · simp only [Bool.false_eq_true, if_false, List.map_cons, List.length_cons, h1,
            List.range_succ_eq_map, List.map_map]
          refine congrArg₂ _ ?_ (List.map_congr_left fun j _ => ?_)
          · simp [Nat.mod_eq_of_lt hseq]
          · simp only [Function.comp, uint32Size]; omega
        · simp only [Bool.false_eq_true, if_false, List.length_cons, h2]
          simp only [uint32Size]
          omega


/-- Running `k` register-and-remove cycles on a digest that is absent hands out `k` consecutive
counter values (modulo `1 << 32`) and leaves the map as it was. -/
theorem runOps_registerRemoveCycles (env : Env) (d : TaskResponseDigest) (req : TaskRequest)
    (k : Nat) (rest : List RegistryOp) (agg : Registry)
    (habs : mapGet agg.taskIndexMap d = none) (hseq : agg.taskIndexSeq < uint32Size) :
    runOps agg (registerRemoveCycles env d req k ++ rest) =
      ((runOps { taskIndexSeq := (agg.taskIndexSeq + k) % uint32Size,
                 taskIndexMap := agg.taskIndexMap } rest).1,
        (List.range k).map (fun j => (d, (agg.taskIndexSeq + j) % uint32Size)) ++
          (runOps { taskIndexSeq := (agg.taskIndexSeq + k) % uint32Size,
                    taskIndexMap := agg.taskIndexMap } rest).2) := by
  induction k generalizing agg with
  | zero =>
    obtain ⟨s, m⟩ := agg
    simp only at hseq
    simp [registerRemoveCycles, Nat.mod_eq_of_lt hseq]
  | succ k ih =>
    have hlt : (agg.taskIndexSeq + 1) % uint32Size < uint32Size := Nat.mod_lt _ (by decide)
    have hstep : ((agg.taskIndexSeq + 1) % uint32Size + k) % uint32Size =
        (agg.taskIndexSeq + (k + 1)) % uint32Size := by
      simp only [uint32Size]; omega
    have hdel : mapDelete ((d, ({ state := req, index := agg.taskIndexSeq } : Task)) ::
        agg.taskIndexMap) d = agg.taskIndexMap := by
      simp [mapDelete, mapDelete_of_absent _ _ habs]
    have hih := ih { taskIndexSeq := (agg.taskIndexSeq + 1) % uint32Size,
                     taskIndexMap := agg.taskIndexMap } habs hlt
    simp only [hstep] at hih
    have hcycle : ∀ tail : List RegistryOp,
        runOps agg (RegistryOp.register env d req [] [] 0 0 :: RegistryOp.remove d :: tail) =
          ((runOps { taskIndexSeq := (agg.taskIndexSeq + 1) % uint32Size,
                     taskIndexMap := agg.taskIndexMap } tail).1,
            (d, agg.taskIndexSeq) ::
              (runOps { taskIndexSeq := (agg.taskIndexSeq + 1) % uint32Size,
                        taskIndexMap := agg.taskIndexMap } tail).2) := by
      intro tail
      simp only [runOps, registerLocked_absent env agg d req [] [] 0 0 habs, removeLocked, hdel,
        Bool.false_eq_true, if_false]
    show runOps agg (RegistryOp.register env d req [] [] 0 0 :: RegistryOp.remove d ::
      (registerRemoveCycles env d req k ++ rest)) = _
    rw [hcycle, hih, List.range_succ_eq_map, List.map_cons, List.map_map, List.cons_append]
    refine congrArg₂ _ rfl (congrArg₂ _ ?_ (congrArg₂ _ (List.map_congr_left fun j _ => ?_) rfl))
    · simp [Nat.mod_eq_of_lt hseq]
    · simp only [Function.comp, uint32Size, Prod.mk.injEq, true_and]; omega

/-- C1 (as amended): starting from a fresh registry, in every sequence of registrations and
removals that creates at most `1 << 32` tasks, the k-th task created gets index `k`
(removals do not give an index back), so any two registrations that created a task received
different indices. -/
theorem created_indices_distinct_before_wrap (ops : List RegistryOp)
    (h : (runOps Registry.new ops).2.length ≤ uint32Size) :
    (runOps Registry.new ops).2.map Prod.snd =
      List.range (runOps Registry.new ops).2.length ∧
    ((runOps Registry.new ops).2.map Prod.snd).Nodup := by
  have hidx := (runOps_indices ops Registry.new (by decide)).1
  have heq : (runOps Registry.new ops).2.map Prod.snd =
      List.range (runOps Registry.new ops).2.length := by
    rw [hidx]
    conv_rhs => rw [← List.map_id (List.range (runOps Registry.new ops).2.length)]
    refine List.map_congr_left fun j hj => ?_
    have hj' := List.mem_range.1 hj
    simp only [Registry.new, Nat.zero_add, id]
    exact Nat.mod_eq_of_lt (by omega)
  exact ⟨heq, heq ▸ List.nodup_range _⟩

/-- C1 (as amended) on a run that registers digest 7, removes it, and registers digests 7
and 8: the indices are 0, 1 and 2. -/
theorem created_indices_distinct_before_wrap_witness :
    (runOps Registry.new
        [RegistryOp.register acceptAll 7 (sampleRequest 7) [] [] 0 0, RegistryOp.remove 7,
          RegistryOp.register acceptAll 7 (sampleRequest 7) [] [] 0 0,
          RegistryOp.register acceptAll 8 (sampleRequest 8) [] [] 0 0]).2 =
      [(7, 0), (7, 1), (8, 2)] ∧
    ((runOps Registry.new
        [RegistryOp.register acceptAll 7 (sampleRequest 7) [] [] 0 0, RegistryOp.remove 7,
          RegistryOp.register acceptAll 7 (sampleRequest 7) [] [] 0 0,
          RegistryOp.register acceptAll 8 (sampleRequest 8) [] [] 0 0]).2.map Prod.snd).Nodup :=
  ⟨by decide,
    (created_indices_distinct_before_wrap
      [RegistryOp.register acceptAll 7 (sampleRequest 7) [] [] 0 0, RegistryOp.remove 7,
        RegistryOp.register acceptAll 7 (sampleRequest 7) [] [] 0 0,
        RegistryOp.register acceptAll 8 (sampleRequest 8) [] [] 0 0] (by decide)).2⟩

/-- C1 (counterexample): from a fresh registry, register digest 7 and remove it, `1 << 32`
times over, then register digest 8. The first registration created the task of digest 7 with
index 0, and the last one creates the task of digest 8 with index 0 again: the `uint32`
counter has wrapped. -/
theorem index_reused_after_wrap :
    (runOps Registry.new wrapAroundOps).2[0]? = some (7, 0) ∧
    (runOps Registry.new wrapAroundOps).2[uint32Size]? = some (8, 0) ∧
    ¬ ((runOps Registry.new wrapAroundOps).2.map Prod.snd).Nodup := by
  have hwrap : (Registry.new.taskIndexSeq + uint32Size) % uint32Size = 0 := by decide
  have hpos : 0 < uint32Size := by decide
  have hrun : (runOps Registry.new wrapAroundOps).2 =
      (List.range uint32Size).map (fun j => (7, (Registry.new.taskIndexSeq + j) % uint32Size)) ++
        [(8, 0)] := by
    unfold wrapAroundOps
    rw [runOps_registerRemoveCycles acceptAll 7 (sampleRequest 7) uint32Size _ Registry.new rfl
      hpos, hwrap]
    rfl
  have hlen : ((List.range uint32Size).map
      (fun j => ((7 : TaskResponseDigest), (Registry.new.taskIndexSeq + j) % uint32Size))).length
        = uint32Size := by
    rw [List.length_map, List.length_range]
  have h0 : (runOps Registry.new wrapAroundOps).2[0]? = some (7, 0) := by
    rw [hrun, List.getElem?_append_left (by rw [hlen]; exact hpos), List.getElem?_map,
      List.getElem?_range hpos]
    rfl
  have hM : (runOps Registry.new wrapAroundOps).2[uint32Size]? = some (8, 0) := by
    rw [hrun, List.getElem?_append_right (by rw [hlen]), hlen, Nat.sub_self]
    rfl
  refine ⟨h0, hM, fun hnodup => ?_⟩
  have hlt : (0 : Nat) < (runOps Registry.new wrapAroundOps).2.length := by
    rw [hrun, List.length_append, hlen]; omega
  have hlt' : uint32Size < (runOps Registry.new wrapAroundOps).2.length := by
    rw [hrun, List.length_append, hlen]; simp
  have e0 : ((runOps Registry.new wrapAroundOps).2.map Prod.snd)[0]? = some 0 := by
    rw [List.getElem?_map, h0]; rfl
  have eM : ((runOps Registry.new wrapAroundOps).2.map Prod.snd)[uint32Size]? = some 0 := by
    rw [List.getElem?_map, hM]; rfl
  have hne := List.nodup_iff_getElem?_ne_getElem?.1 hnodup 0 uint32Size hpos
    (by rw [List.length_map]; exact hlt')
  exact hne (e0.trans eM.symm)

/-! ## Theorems: `submitStateHeader` -/

/-- The sampling test either ends the call before anything is touched, or hands over to the
rest of the function. -/
theorem submitStateHeader_cases (env : Env) (cfg : Config) (agg : Registry) (req : TaskRequest) :
    ((submitStateHeader env cfg agg req).calls = [] ∧
      (submitStateHeader env cfg agg req).agg = agg) ∨
    submitStateHeader env cfg agg req = submitAfterSampling env cfg agg req := by
  unfold submitStateHeader
  split
  · split
    · exact Or.inl ⟨rfl, rfl⟩
    · split
      · split
        · exact Or.inl ⟨rfl, rfl⟩
        · split
          · exact Or.inl ⟨rfl, rfl⟩
          · exact Or.inr rfl
      · exact Or.inr rfl
  · exact Or.inr rfl

/-- The calls made by the locked section: none, or the one `InitializeNewTask`. -/
theorem registerLocked_calls (env : Env) (agg : Registry) (digest : TaskResponseDigest)
    (req : TaskRequest) (qn qtp : List Nat) (minWait timeToExpiry : Int) (c : Call)
    (hc : c ∈ (registerLocked env agg digest req qn qtp minWait timeToExpiry).calls) :
    ∃ a b, c = Call.InitializeNewTask a b qn qtp minWait timeToExpiry := by
  unfold registerLocked at hc
  split at hc
  · simp at hc
  · simp only [List.mem_singleton] at hc
    exact ⟨_, _, hc⟩

/-- What lines 387-410 do, in terms of the result `r` of the locked section. -/
theorem registerAndProcess_spec (env : Env) (agg : Registry) (digest : TaskResponseDigest)
    (req : TaskRequest) (qn qtp : List Nat) (minWait timeToExpiry : Int) :
    (registerAndProcess env agg digest req qn qtp minWait timeToExpiry).agg =
      (registerLocked env agg digest req qn qtp minWait timeToExpiry).agg ∧
    (registerAndProcess env agg digest req qn qtp minWait timeToExpiry).req = req ∧
    (∀ e, (registerLocked env agg digest req qn qtp minWait timeToExpiry).err = some e →
      (registerAndProcess env agg digest req qn qtp minWait timeToExpiry).ret =
        Ret.error (logexTrace e) ∧
      (registerAndProcess env agg digest req qn qtp minWait timeToExpiry).calls =
        (registerLocked env agg digest req qn qtp minWait timeToExpiry).calls) ∧
    ((registerLocked env agg digest req qn qtp minWait timeToExpiry).err = none →
      (registerAndProcess env agg digest req qn qtp minWait timeToExpiry).calls =
        (registerLocked env agg digest req qn qtp minWait timeToExpiry).calls ++
          [Call.ProcessNewSignature
            (registerLocked env agg digest req qn qtp minWait timeToExpiry).task.index digest
            req.Signature req.OperatorId] ∧
      (registerAndProcess env agg digest req qn qtp minWait timeToExpiry).ret =
        match env.ProcessNewSignature
            (registerLocked env agg digest req qn qtp minWait timeToExpiry).task.index digest
            req.Signature req.OperatorId with
        | none => Ret.ok
        | some e =>
          if stringsContains e "already completed" then Ret.ok else Ret.error (logexTrace e)) := by
  unfold registerAndProcess
  generalize registerLocked env agg digest req qn qtp minWait timeToExpiry = r
  obtain ⟨ragg, rtask, rok, rerr, rcalls⟩ := r
  cases rerr with
  | some e => simp
  | none =>
    simp only [true_and, reduceCtorEq, false_implies, implies_true, forall_const]
    cases hp : env.ProcessNewSignature rtask.index digest req.Signature req.OperatorId with
    | none => simp
    | some e =>
      cases hcont : stringsContains e "already completed" <;> simp [hcont]

/-- A request reaches `ProcessNewSignature` only through the locked section: the call is made
with the index of the task found or created there, the digest of the request, and its
signature and operator id; `InitializeNewTask` did not fail. -/
theorem submitStateHeader_reaches_process (env : Env) (cfg : Config) (agg : Registry)
    (req : TaskRequest) (idx : Nat) (d : TaskResponseDigest) (sig op : Nat)
    (h : Call.ProcessNewSignature idx d sig op ∈ (submitStateHeader env cfg agg req).calls) :
    ∃ qn qtp,
      env.Digest req.Task = Except.ok d ∧
      buildQuorums cfg req.Task = some (qn, qtp) ∧
      (submitStateHeader env cfg agg req).req =
        { req with Task := { req.Task with QuorumThresholdPercentages := qtp } } ∧
      (registerLocked env agg d (submitStateHeader env cfg agg req).req qn qtp
        (durationOfSecs cfg.MinWaitSecs) (durationOfSecs cfg.TimeToExpirySecs)).err = none ∧
      idx = (registerLocked env agg d (submitStateHeader env cfg agg req).req qn qtp
        (durationOfSecs cfg.MinWaitSecs) (durationOfSecs cfg.TimeToExpirySecs)).task.index ∧
      sig = req.Signature ∧ op = req.OperatorId ∧
      (submitStateHeader env cfg agg req).agg =
        (registerLocked env agg d (submitStateHeader env cfg agg req).req qn qtp
          (durationOfSecs cfg.MinWaitSecs) (durationOfSecs cfg.TimeToExpirySecs)).agg ∧
      (submitStateHeader env cfg agg req).ret =
        match env.ProcessNewSignature idx d sig op with
        | none => Ret.ok
        | some e =>
          if stringsContains e "already completed" then Ret.ok else Ret.error (logexTrace e) := by
  rcases submitStateHeader_cases env cfg agg req with hskip | hrest
  · rw [hskip.1] at h
    simp at h
  · rw [hrest] at h ⊢
    unfold submitAfterSampling at h ⊢
    cases hd : env.Digest req.Task with
    | error e => simp [hd] at h
    | ok digest =>
      cases hb : buildQuorums cfg req.Task with
      | none => simp [hd, hb] at h
      | some p =>
        obtain ⟨qn, qtp⟩ := p
        simp only [hd, hb] at h ⊢
        obtain ⟨hagg, hreq, herr, hok⟩ := registerAndProcess_spec env agg digest
          { req with Task := { req.Task with QuorumThresholdPercentages := qtp } } qn qtp
          (durationOfSecs cfg.MinWaitSecs) (durationOfSecs cfg.TimeToExpirySecs)
        cases herr' : (registerLocked env agg digest
            { req with Task := { req.Task with QuorumThresholdPercentages := qtp } } qn qtp
            (durationOfSecs cfg.MinWaitSecs) (durationOfSecs cfg.TimeToExpirySecs)).err with
        | some e =>
          rw [(herr e herr').2] at h
          simp only [List.mem_cons, reduceCtorEq, false_or] at h
          obtain ⟨a, b, hc⟩ := registerLocked_calls _ _ _ _ _ _ _ _ _ h
          exact Call.noConfusion hc
        | none =>
          obtain ⟨hcalls, hret⟩ := hok herr'
          rw [hcalls] at h
          simp only [List.mem_cons, reduceCtorEq, false_or, List.mem_append, List.mem_singleton,
            List.not_mem_nil, or_false] at h
          rcases h with h | h
          · obtain ⟨a, b, hc⟩ := registerLocked_calls _ _ _ _ _ _ _ _ _ h
            exact Call.noConfusion hc
          · simp only [Call.ProcessNewSignature.injEq] at h
            obtain ⟨h1, h2, h3, h4⟩ := h
            subst h2 h3 h4
            refine ⟨qn, qtp, rfl, rfl, hreq, ?_, ?_, rfl, rfl, ?_, ?_⟩
            · rw [hreq]; exact herr'
            · rw [hreq]; exact h1
            · rw [hreq]; exact hagg
            · rw [hret, h1]


/-- The model of `strings.Contains` holds exactly when the second text occurs as a contiguous
block of the first. -/
theorem stringsContains_iff (s substr : String) :
    stringsContains s substr = true ↔ substr.toList <:+: s.toList := by
  unfold stringsContains
  rw [List.any_eq_true, List.infix_iff_prefix_suffix]
  constructor
  · rintro ⟨t, ht, hp⟩
    exact ⟨t, List.isPrefixOf_iff_prefix.1 hp, (List.mem_tails _ _).1 ht⟩
  · rintro ⟨t, hp, ht⟩
    exact ⟨t, (List.mem_tails _ _).2 ht, List.isPrefixOf_iff_prefix.2 hp⟩

/-- When `Digest` fails, the part after the sampling test returns the error after that one
call and leaves the registry alone. -/
theorem submitAfterSampling_digest_error (env : Env) (cfg : Config) (agg : Registry)
    (req : TaskRequest) (e : Error) (h : env.Digest req.Task = Except.error e) :
    submitAfterSampling env cfg agg req =
      { ret := Ret.error (logexTrace e), agg := agg, req := req,
        calls := [Call.Digest req.Task] } := by
  simp [submitAfterSampling, h]

/-- An entry of the map stays what it is while its digest is not removed. -/
theorem mapGet_runOps_stable (d : TaskResponseDigest) (t : Task) (ops : List RegistryOp)
    (agg : Registry) (h : mapGet agg.taskIndexMap d = some t)
    (hops : RegistryOp.remove d ∉ ops) :
    mapGet (runOps agg ops).1.taskIndexMap d = some t := by
  induction ops generalizing agg with
  | nil => exact h
  | cons op ops ih =>
    have hops' : RegistryOp.remove d ∉ ops := fun hm => hops (List.mem_cons_of_mem _ hm)
    cases op with
    | remove d' =>
      have hne : d ≠ d' := fun heq => hops (heq ▸ List.mem_cons_self _ _)
      simp only [runOps]
      refine ih _ ?_ hops'
      simp only [removeLocked]
      rw [mapGet_mapDelete_other _ _ _ hne]
      exact h
    | register env d' req qn qtp mw tte =>
      simp only [runOps]
      refine ih _ ?_ hops'
      cases hget : mapGet agg.taskIndexMap d' with
      | some t' =>
        rw [registerLocked_present env agg d' req qn qtp mw tte t' hget]
        exact h
      | none =>
        rw [registerLocked_absent env agg d' req qn qtp mw tte hget]
        have hne : ¬ d' = d := fun heq => by
          rw [heq, h] at hget
          exact Option.noConfusion hget
        simp only [mapGet, if_neg hne]
        exact h

/-- C2 (as amended): a request rejected because its digest cannot be computed returns the
error and leaves map and counter unchanged. A request rejected by `ProcessNewSignature`
(unknown operator, invalid signature: any error other than "already completed") returns the
error; map and counter are unchanged when its digest was already registered, and when it
is the first request seen for its digest the task it created stays registered under the
index it was given and the counter stays incremented. -/
theorem rejection_keeps_registry_unless_first (env : Env) (cfg : Config) (agg : Registry)
    (req : TaskRequest) :
    (∀ e, env.Digest req.Task = Except.error e →
      (submitStateHeader env cfg agg req).agg = agg ∧
      (Call.Digest req.Task ∈ (submitStateHeader env cfg agg req).calls →
        (submitStateHeader env cfg agg req).ret = Ret.error (logexTrace e) ∧
        (submitStateHeader env cfg agg req).calls = [Call.Digest req.Task])) ∧
    (∀ idx d sig op e,
      Call.ProcessNewSignature idx d sig op ∈ (submitStateHeader env cfg agg req).calls →
      env.ProcessNewSignature idx d sig op = some e →
      stringsContains e "already completed" = false →
      (submitStateHeader env cfg agg req).ret = Ret.error (logexTrace e) ∧
      (∀ t, mapGet agg.taskIndexMap d = some t → (submitStateHeader env cfg agg req).agg = agg) ∧
      (mapGet agg.taskIndexMap d = none →
        (submitStateHeader env cfg agg req).agg =
          { taskIndexSeq := (agg.taskIndexSeq + 1) % uint32Size,
            taskIndexMap :=
              (d, { state := (submitStateHeader env cfg agg req).req,
                    index := agg.taskIndexSeq }) :: agg.taskIndexMap })) := by
  constructor
  · intro e he
    rcases submitStateHeader_cases env cfg agg req with hskip | hrest
    · refine ⟨hskip.2, fun hm => ?_⟩
      rw [hskip.1] at hm
      simp at hm
    · rw [hrest, submitAfterSampling_digest_error env cfg agg req e he]
      exact ⟨rfl, fun _ => ⟨rfl, rfl⟩⟩
  · intro idx d sig op e hm hp hc
    obtain ⟨qn, qtp, _, _, _, _, _, _, _, hagg, hret⟩ :=
      submitStateHeader_reaches_process env cfg agg req idx d sig op hm
    refine ⟨?_, fun t ht => ?_, fun hnone => ?_⟩
    · rw [hret, hp]
      simp [hc]
    · rw [hagg, registerLocked_present _ _ _ _ _ _ _ _ t ht]
    · rw [hagg, registerLocked_absent _ _ _ _ _ _ _ _ hnone]

/-- C2 (as amended) on a request for a registered digest that `ProcessNewSignature` rejects:
the error is returned and the registry is unchanged. -/
theorem rejection_keeps_registry_unless_first_witness :
    Call.ProcessNewSignature 0 7 11 3 ∈
      (submitStateHeader (rejectSignature "operator not found") sampleConfig
        { taskIndexSeq := 1, taskIndexMap := [(7, { state := sampleRequest 7, index := 0 })] }
        (sampleRequest 7)).calls ∧
    (submitStateHeader (rejectSignature "operator not found") sampleConfig
        { taskIndexSeq := 1, taskIndexMap := [(7, { state := sampleRequest 7, index := 0 })] }
        (sampleRequest 7)).ret = Ret.error "operator not found" ∧
    (submitStateHeader (rejectSignature "operator not found") sampleConfig
        { taskIndexSeq := 1, taskIndexMap := [(7, { state := sampleRequest 7, index := 0 })] }
        (sampleRequest 7)).agg =
      { taskIndexSeq := 1, taskIndexMap := [(7, { state := sampleRequest 7, index := 0 })] } :=
  have h := (rejection_keeps_registry_unless_first (rejectSignature "operator not found")
    sampleConfig
    { taskIndexSeq := 1, taskIndexMap := [(7, { state := sampleRequest 7, index := 0 })] }
    (sampleRequest 7)).2 0 7 11 3 "operator not found" (by decide) rfl (by decide)
  ⟨by decide, h.1, h.2.1 { state := sampleRequest 7, index := 0 } rfl⟩

/-- C2 (counterexample): on a fresh registry, the first request for digest 7 is rejected by
`ProcessNewSignature` with "operator not found". The call returns that error, yet the map now
holds a task for digest 7 with index 0 and the counter is 1. -/
theorem rejected_first_request_mutates_registry :
    (submitStateHeader (rejectSignature "operator not found") sampleConfig Registry.new
      (sampleRequest 7)).ret = Ret.error "operator not found" ∧
    (submitStateHeader (rejectSignature "operator not found") sampleConfig Registry.new
      (sampleRequest 7)).agg.taskIndexSeq = 1 ∧
    (mapGet (submitStateHeader (rejectSignature "operator not found") sampleConfig Registry.new
      (sampleRequest 7)).agg.taskIndexMap 7).map Task.index = some 0 ∧
    (submitStateHeader (rejectSignature "operator not found") sampleConfig Registry.new
      (sampleRequest 7)).agg ≠ Registry.new := by
  decide

/-- C5: when the digest is already registered, the locked section of `submitStateHeader`
returns the stored task, leaves map (and with it the stored task, its index and its
request) and counter unchanged and makes no call to `InitializeNewTask`; the only call of
lines 387-410 is `ProcessNewSignature` under the stored index. If the registry came from a
first registration of the digest followed by operations that do not remove it, the stored
task is the one created then: the first request, and the counter value of that moment. -/
theorem register_is_noop_when_present (env : Env) (agg : Registry) (d : TaskResponseDigest)
    (req : TaskRequest) (qn qtp : List Nat) (minWait timeToExpiry : Int) (t : Task)
    (h : mapGet agg.taskIndexMap d = some t) :
    (registerLocked env agg d req qn qtp minWait timeToExpiry).agg = agg ∧
    (registerLocked env agg d req qn qtp minWait timeToExpiry).task = t ∧
    (registerLocked env agg d req qn qtp minWait timeToExpiry).calls = [] ∧
    (registerAndProcess env agg d req qn qtp minWait timeToExpiry).agg = agg ∧
    (registerAndProcess env agg d req qn qtp minWait timeToExpiry).calls =
      [Call.ProcessNewSignature t.index d req.Signature req.OperatorId] ∧
    (∀ (env0 : Env) (agg0 : Registry) (req0 : TaskRequest) (qn0 qtp0 : List Nat)
        (minWait0 timeToExpiry0 : Int) (ops : List RegistryOp),
      mapGet agg0.taskIndexMap d = none → RegistryOp.remove d ∉ ops →
      agg = (runOps (registerLocked env0 agg0 d req0 qn0 qtp0 minWait0 timeToExpiry0).agg
        ops).1 →
      t = { state := req0, index := agg0.taskIndexSeq }) := by
  obtain ⟨hagg, _, _, hok⟩ := registerAndProcess_spec env agg d req qn qtp minWait timeToExpiry
  rw [registerLocked_present env agg d req qn qtp minWait timeToExpiry t h] at hagg hok ⊢
  refine ⟨rfl, rfl, rfl, hagg, by simpa using (hok rfl).1, ?_⟩
  intro env0 agg0 req0 qn0 qtp0 mw0 tte0 ops habs hops hrun
  have hfirst : mapGet (registerLocked env0 agg0 d req0 qn0 qtp0 mw0 tte0).agg.taskIndexMap d =
      some { state := req0, index := agg0.taskIndexSeq } := by
    rw [registerLocked_absent env0 agg0 d req0 qn0 qtp0 mw0 tte0 habs]
    simp [mapGet]
  have hstable := mapGet_runOps_stable d _ ops _ hfirst hops
  rw [← hrun, h] at hstable
  exact Option.some.inj hstable

/-- C5 on a second request for the registered digest 7: registry unchanged, one call of
`ProcessNewSignature` under index 0. -/
theorem register_is_noop_when_present_witness :
    mapGet [(7, ({ state := sampleRequest 7, index := 0 } : Task))] 7 =
      some { state := sampleRequest 7, index := 0 } ∧
    (registerAndProcess acceptAll
        { taskIndexSeq := 1, taskIndexMap := [(7, { state := sampleRequest 7, index := 0 })] }
        7 { sampleRequest 7 with Signature := 12, OperatorId := 4 } [0] [67] 5 60).agg =
      { taskIndexSeq := 1, taskIndexMap := [(7, { state := sampleRequest 7, index := 0 })] } ∧
    (registerAndProcess acceptAll
        { taskIndexSeq := 1, taskIndexMap := [(7, { state := sampleRequest 7, index := 0 })] }
        7 { sampleRequest 7 with Signature := 12, OperatorId := 4 } [0] [67] 5 60).calls =
      [Call.ProcessNewSignature 0 7 12 4] :=
  have h := register_is_noop_when_present acceptAll
    { taskIndexSeq := 1, taskIndexMap := [(7, { state := sampleRequest 7, index := 0 })] }
    7 { sampleRequest 7 with Signature := 12, OperatorId := 4 } [0] [67] 5 60
    { state := sampleRequest 7, index := 0 } (by decide)
  ⟨by decide, h.2.2.2.1, h.2.2.2.2.1⟩

/-- For a request that reaches `ProcessNewSignature`, `submitStateHeader` returns nil when that
call succeeds and when it fails with an error whose text contains "already completed", and
returns the error for every other failure of that call. -/
theorem processNewSignature_return (env : Env) (cfg : Config) (agg : Registry)
    (req : TaskRequest) (idx : Nat) (d : TaskResponseDigest) (sig op : Nat)
    (h : Call.ProcessNewSignature idx d sig op ∈ (submitStateHeader env cfg agg req).calls) :
    (env.ProcessNewSignature idx d sig op = none →
      (submitStateHeader env cfg agg req).ret = Ret.ok) ∧
    (∀ e, env.ProcessNewSignature idx d sig op = some e →
      stringsContains e "already completed" = true →
      (submitStateHeader env cfg agg req).ret = Ret.ok) ∧
    (∀ e, env.ProcessNewSignature idx d sig op = some e →
      stringsContains e "already completed" = false →
      (submitStateHeader env cfg agg req).ret = Ret.error (logexTrace e)) := by
  obtain ⟨qn, qtp, _, _, _, _, _, _, _, _, hret⟩ :=
    submitStateHeader_reaches_process env cfg agg req idx d sig op h
  refine ⟨fun hp => ?_, fun e hp hc => ?_, fun e hp hc => ?_⟩
  · rw [hret, hp]
  · rw [hret, hp]; simp [hc]
  · rw [hret, hp]; simp [hc]

/-- C7 (as amended): for a request that reaches `ProcessNewSignature`, `submitStateHeader`
returns nil when that call succeeds and when it fails with an error whose text contains
"already completed", and returns the error for every other failure of that call. With the
engine of the specification the benign error is `UnknownTaskError`, which the engine gives
for a completed task and for an unknown task alike: both return nil. The failures that are
returned are `UnknownOperatorError` and `SignatureVerificationError`. -/
theorem already_completed_or_unknown_task_is_benign (eng : Engine) (env : Env) (cfg : Config)
    (agg : Registry) (req : TaskRequest) (idx : Nat) (d : TaskResponseDigest) (sig op : Nat)
    (henv : env.ProcessNewSignature = eng.ProcessNewSignature)
    (h : Call.ProcessNewSignature idx d sig op ∈ (submitStateHeader env cfg agg req).calls) :
    (env.ProcessNewSignature idx d sig op = none →
      (submitStateHeader env cfg agg req).ret = Ret.ok) ∧
    (∀ e, env.ProcessNewSignature idx d sig op = some e →
      stringsContains e "already completed" = true →
      (submitStateHeader env cfg agg req).ret = Ret.ok) ∧
    (∀ e, env.ProcessNewSignature idx d sig op = some e →
      stringsContains e "already completed" = false →
      (submitStateHeader env cfg agg req).ret = Ret.error (logexTrace e)) ∧
    (idx ∉ eng.initialized ∨ idx ∈ eng.completed →
      env.ProcessNewSignature idx d sig op = some unknownTaskError ∧
      (submitStateHeader env cfg agg req).ret = Ret.ok) ∧
    (idx ∈ eng.initialized → idx ∉ eng.completed → op ∉ eng.members idx →
      (submitStateHeader env cfg agg req).ret = Ret.error (logexTrace unknownOperatorError)) ∧
    (idx ∈ eng.initialized → idx ∉ eng.completed → op ∈ eng.members idx →
      eng.verifies d sig op = false →
      (submitStateHeader env cfg agg req).ret =
        Ret.error (logexTrace signatureVerificationError)) ∧
    (idx ∈ eng.initialized → idx ∉ eng.completed → op ∈ eng.members idx →
      eng.verifies d sig op = true →
      (submitStateHeader env cfg agg req).ret = Ret.ok) := by
  obtain ⟨hnone, hbenign, hother⟩ := processNewSignature_return env cfg agg req idx d sig op h
  refine ⟨hnone, hbenign, hother, fun hunk => ?_, fun hi hc hop => ?_, fun hi hc hop hv => ?_,
    fun hi hc hop hv => ?_⟩
  · have hp : env.ProcessNewSignature idx d sig op = some unknownTaskError := by
      rw [henv]; simp only [Engine.ProcessNewSignature, if_pos hunk]
    exact ⟨hp, hbenign _ hp (by decide)⟩
  · have hk : ¬ (idx ∉ eng.initialized ∨ idx ∈ eng.completed) := fun hk =>
      hk.elim (fun h1 => h1 hi) hc
    have hp : env.ProcessNewSignature idx d sig op = some unknownOperatorError := by
      rw [henv]; simp only [Engine.ProcessNewSignature, if_neg hk, if_pos hop]
    exact hother _ hp (by decide)
  · have hk : ¬ (idx ∉ eng.initialized ∨ idx ∈ eng.completed) := fun hk =>
      hk.elim (fun h1 => h1 hi) hc
    have hp : env.ProcessNewSignature idx d sig op = some signatureVerificationError := by
      rw [henv]
      simp only [Engine.ProcessNewSignature, if_neg hk, hop, not_true_eq_false, if_false, hv,
        Bool.not_false, if_true]
    exact hother _ hp (by decide)
  · have hk : ¬ (idx ∉ eng.initialized ∨ idx ∈ eng.completed) := fun hk =>
      hk.elim (fun h1 => h1 hi) hc
    have hp : env.ProcessNewSignature idx d sig op = none := by
      rw [henv]
      simp [Engine.ProcessNewSignature, hk, hop, hv]
    exact hnone hp

/-- C7 (as amended) on a registry that holds digest 7 under index 0: with the task still
collecting, a signature that does not verify is returned as an error; with no task known to
the engine, the same request returns nil. -/
theorem already_completed_or_unknown_task_is_benign_witness :
    (submitStateHeader (engineEnv collectingEngine) sampleConfig oneTask
      { sampleRequest 7 with Signature := 12 }).ret =
      Ret.error "signature verification failed" ∧
    (submitStateHeader (engineEnv idleEngine) sampleConfig oneTask (sampleRequest 7)).ret =
      Ret.ok :=
  ⟨(already_completed_or_unknown_task_is_benign collectingEngine (engineEnv collectingEngine)
      sampleConfig oneTask { sampleRequest 7 with Signature := 12 } 0 7 12 3 rfl
      (by decide)).2.2.2.2.2.1 (by decide) (by decide) (by decide) (by decide),
    ((already_completed_or_unknown_task_is_benign idleEngine (engineEnv idleEngine)
      sampleConfig oneTask (sampleRequest 7) 0 7 11 3 rfl
      (by decide)).2.2.2.1 (Or.inl (by decide))).2⟩

/-- C7 (counterexample): an unknown task is not surfaced. The first request for digest 7
registers the task under index 0, but `InitializeNewTask` fails (unknown block): the error is
returned and the task stays in the map, unknown to the engine. For the second request
`ProcessNewSignature` fails with `UnknownTaskError`, whose text contains "already completed",
and `submitStateHeader` returns nil. -/
theorem unknown_task_error_is_not_surfaced :
    (submitStateHeader (engineEnv idleEngine) sampleConfig Registry.new (sampleRequest 7)).ret =
      Ret.error "unknown block" ∧
    (mapGet (submitStateHeader (engineEnv idleEngine) sampleConfig Registry.new
      (sampleRequest 7)).agg.taskIndexMap 7).map Task.index = some 0 ∧
    idleEngine.ProcessNewSignature 0 7 11 3 = some unknownTaskError ∧
    (submitStateHeader (engineEnv idleEngine) sampleConfig
      (submitStateHeader (engineEnv idleEngine) sampleConfig Registry.new
        (sampleRequest 7)).agg (sampleRequest 7)).calls =
      [Call.Digest (sampleRequest 7).Task, Call.ProcessNewSignature 0 7 11 3] ∧
    (submitStateHeader (engineEnv idleEngine) sampleConfig
      (submitStateHeader (engineEnv idleEngine) sampleConfig Registry.new
        (sampleRequest 7)).agg (sampleRequest 7)).ret = Ret.ok := by
  decide

/-- Everything after the sampling test starts with the call of `Digest`. -/
theorem submitAfterSampling_calls_digest (env : Env) (cfg : Config) (agg : Registry)
    (req : TaskRequest) : Call.Digest req.Task ∈ (submitAfterSampling env cfg agg req).calls := by
  unfold submitAfterSampling
  split
  · simp
  · split <;> simp

/-- Lines 387-410 return nil or an error, never a panic. -/
theorem registerAndProcess_ret (env : Env) (agg : Registry) (digest : TaskResponseDigest)
    (req : TaskRequest) (qn qtp : List Nat) (minWait timeToExpiry : Int) (p : Panic) :
    (registerAndProcess env agg digest req qn qtp minWait timeToExpiry).ret ≠ Ret.fault p := by
  obtain ⟨_, _, herr, hok⟩ := registerAndProcess_spec env agg digest req qn qtp minWait timeToExpiry
  cases h : (registerLocked env agg digest req qn qtp minWait timeToExpiry).err with
  | some e => rw [(herr e h).1]; exact Ret.noConfusion
  | none =>
    rw [(hok h).2]
    split
    · exact Ret.noConfusion
    · split <;> exact Ret.noConfusion

/-- The part after the sampling test never divides. -/
theorem submitAfterSampling_no_division (env : Env) (cfg : Config) (agg : Registry)
    (req : TaskRequest) :
    (submitAfterSampling env cfg agg req).ret ≠ Ret.fault Panic.integerDivideByZero := by
  unfold submitAfterSampling
  split
  · exact Ret.noConfusion
  · split
    · simp
    · exact registerAndProcess_ret _ _ _ _ _ _ _ _ _

/-- What `Config.Init` leaves in the three sampling fields. -/
theorem Config.Init_sampling (cfg : Config) :
    cfg.Init.Sampling = (if cfg.Sampling = 0 then 2000 else cfg.Sampling) ∧
    cfg.Init.ExecTaskSampling =
      (if cfg.ExecTaskSampling = 0 then cfg.Init.Sampling else cfg.ExecTaskSampling) ∧
    cfg.Init.GenTaskSampling =
      (if cfg.GenTaskSampling = 0 then cfg.Init.Sampling else cfg.GenTaskSampling) := by
  obtain ⟨a, b, c, s, g, e, l⟩ := cfg
  simp only [Config.Init]
  by_cases hs : s = 0 <;> by_cases hl : l = 0 <;> by_cases he : e = 0 <;> by_cases hg : g = 0 <;>
    simp [hs, hl, he, hg]

/-- C9: after `Config.Init` the three sampling divisors are non-zero (`Sampling` defaults to
2000, each class divisor on its own to `Sampling`, non-zero values stay as configured). For
a request of the task class with identifier 1 whose metadata decodes to batch id `b`,
`submitStateHeader` goes on to the digest and the rest of the function exactly when
`b % ExecTaskSampling = 0`; otherwise it returns nil with registry and request untouched and
no collaborator called. The modulo never divides by zero. -/
theorem sampling_every_nth_batch (cfg0 : Config) (env : Env) (agg : Registry)
    (req : TaskRequest) (md : Metadata) (hid : req.Task.Identifier = 1)
    (hmd : env.Unmarshal req.Task.Metadata = Except.ok md) :
    (cfg0.Init.Sampling ≠ 0 ∧ cfg0.Init.ExecTaskSampling ≠ 0 ∧ cfg0.Init.GenTaskSampling ≠ 0) ∧
    (cfg0.Init.Sampling = if cfg0.Sampling = 0 then 2000 else cfg0.Sampling) ∧
    (cfg0.Init.ExecTaskSampling =
      if cfg0.ExecTaskSampling = 0 then cfg0.Init.Sampling else cfg0.ExecTaskSampling) ∧
    (cfg0.Init.GenTaskSampling =
      if cfg0.GenTaskSampling = 0 then cfg0.Init.Sampling else cfg0.GenTaskSampling) ∧
    (Call.Digest req.Task ∈ (submitStateHeader env cfg0.Init agg req).calls ↔
      md.BatchId % cfg0.Init.ExecTaskSampling = 0) ∧
    (md.BatchId % cfg0.Init.ExecTaskSampling = 0 →
      submitStateHeader env cfg0.Init agg req = submitAfterSampling env cfg0.Init agg req) ∧
    (md.BatchId % cfg0.Init.ExecTaskSampling ≠ 0 →
      submitStateHeader env cfg0.Init agg req =
        { ret := Ret.ok, agg := agg, req := req, calls := [] }) ∧
    (submitStateHeader env cfg0.Init agg req).ret ≠ Ret.fault Panic.integerDivideByZero := by
  obtain ⟨hS, hE, hG⟩ := Config.Init_sampling cfg0
  have hS0 : cfg0.Init.Sampling ≠ 0 := by
    rw [hS]; split <;> simp_all
  have hE0 : cfg0.Init.ExecTaskSampling ≠ 0 := by
    rw [hE]; split <;> simp_all
  have hG0 : cfg0.Init.GenTaskSampling ≠ 0 := by
    rw [hG]; split <;> simp_all
  have hone : bigInt64 req.Task.Identifier = 1 := by rw [hid]; decide
  have hzero : md.BatchId % cfg0.Init.ExecTaskSampling = 0 →
      submitStateHeader env cfg0.Init agg req = submitAfterSampling env cfg0.Init agg req := by
    intro hmod
    unfold submitStateHeader
    simp only [hone, if_true, hmd, if_neg hE0, hmod, ne_eq, not_true_eq_false, if_false]
    split <;> rfl
  have hskip : md.BatchId % cfg0.Init.ExecTaskSampling ≠ 0 →
      submitStateHeader env cfg0.Init agg req =
        { ret := Ret.ok, agg := agg, req := req, calls := [] } := by
    intro hmod
    have hpos : md.BatchId > 0 := by
      rcases Nat.eq_zero_or_pos md.BatchId with h | h
      · rw [h, Nat.zero_mod] at hmod; exact absurd rfl hmod
      · exact h
    unfold submitStateHeader
    simp only [hone, if_true, hmd, if_pos hpos, if_neg hE0, ne_eq, hmod, not_false_eq_true]
  refine ⟨⟨hS0, hE0, hG0⟩, hS, hE, hG, ⟨fun hm => ?_, fun hmod => ?_⟩, hzero, hskip, ?_⟩
  · by_contra hmod
    rw [hskip hmod] at hm
    simp at hm
  · rw [hzero hmod]
    exact submitAfterSampling_calls_digest _ _ _ _
  · by_cases hmod : md.BatchId % cfg0.Init.ExecTaskSampling = 0
    · rw [hzero hmod]; exact submitAfterSampling_no_division _ _ _ _
    · rw [hskip hmod]; exact Ret.noConfusion

/-- C9 on a configuration with all divisors at zero before `Config.Init`: batch 4000 is
processed, batch 4001 is skipped. -/
theorem sampling_every_nth_batch_witness :
    zeroConfig.Init.ExecTaskSampling = 2000 ∧
    Call.Digest (execRequest 7).Task ∈
      (submitStateHeader (batchEnv 4000) zeroConfig.Init Registry.new (execRequest 7)).calls ∧
    submitStateHeader (batchEnv 4001) zeroConfig.Init Registry.new (execRequest 7) =
      { ret := Ret.ok, agg := Registry.new, req := execRequest 7, calls := [] } :=
  ⟨by decide,
    (sampling_every_nth_batch zeroConfig (batchEnv 4000) Registry.new (execRequest 7)
      { BatchId := 4000 } rfl rfl).2.2.2.2.1.2 (by decide),
    (sampling_every_nth_batch zeroConfig (batchEnv 4001) Registry.new (execRequest 7)
      { BatchId := 4001 } rfl rfl).2.2.2.2.2.2.1 (by decide)⟩


/-- Storing at position `i` and keeping the first `i + 1` elements. -/
theorem take_succ_set (l : List Nat) (i a : Nat) (h : i < l.length) :
    (l.set i a).take (i + 1) = l.take i ++ [a] := by
  induction l generalizing i with
  | nil => simp at h
  | cons x xs ih =>
    cases i with
    | zero => simp
    | succ j =>
      have hj : j < xs.length := by simpa using h
      simp [List.set, ih j hj]

/-- The loop of lines 379-382 on slices that are both as long as the list of quorum numbers:
it copies the quorum numbers and stores the converted threshold at every position. -/
theorem fillQuorums_equal_length (threshold : Nat) (qs : List Nat) (i : Nat)
    (qns qtps : List Nat) (hqns : qns.length = i + qs.length)
    (hqtps : qtps.length = i + qs.length) :
    fillQuorums threshold qs i qns qtps =
      some (qns.take i ++ qs,
        qtps.take i ++ List.replicate qs.length (toQuorumThresholdPercentage threshold)) := by
  induction qs generalizing i qns qtps with
  | nil =>
    simp only [List.length_nil, Nat.add_zero] at hqns hqtps
    simp [fillQuorums, List.take_of_length_le, hqns, hqtps]
  | cons q rest ih =>
    simp only [List.length_cons] at hqns hqtps
    have h1 : i < qns.length := by omega
    have h2 : i < qtps.length := by omega
    simp only [fillQuorums, if_pos h1, if_pos h2]
    rw [ih (i + 1) _ _ (by rw [List.length_set]; omega) (by rw [List.length_set]; omega),
      take_succ_set _ _ _ h1, take_succ_set _ _ _ h2]
    simp [List.replicate_succ]

/-- With as many threshold entries as quorum numbers, lines 377-382 do not panic: the quorum
numbers are copied and every threshold is the converted `Threshold`. -/
theorem buildQuorums_equal_length (cfg : Config) (task : StateHeader)
    (h : task.QuorumThresholdPercentages.length = task.QuorumNumbers.length) :
    buildQuorums cfg task =
      some (task.QuorumNumbers,
        List.replicate task.QuorumNumbers.length (toQuorumThresholdPercentage cfg.Threshold)) := by
  unfold buildQuorums
  rw [fillQuorums_equal_length cfg.Threshold task.QuorumNumbers 0 _ _ (by simp) (by simp [h])]
  simp

/-- The part after the sampling test, once the digest is computed and the two slices are
built: the request gets the new threshold list and lines 387-410 run on it. -/
theorem submitAfterSampling_built (env : Env) (cfg : Config) (agg : Registry)
    (req : TaskRequest) (d : TaskResponseDigest) (qn qtp : List Nat)
    (hd : env.Digest req.Task = Except.ok d) (hb : buildQuorums cfg req.Task = some (qn, qtp)) :
    (submitAfterSampling env cfg agg req).ret =
      (registerAndProcess env agg d
        { req with Task := { req.Task with QuorumThresholdPercentages := qtp } } qn qtp
        (durationOfSecs cfg.MinWaitSecs) (durationOfSecs cfg.TimeToExpirySecs)).ret ∧
    (submitAfterSampling env cfg agg req).req =
      { req with Task := { req.Task with QuorumThresholdPercentages := qtp } } ∧
    (submitAfterSampling env cfg agg req).calls = Call.Digest req.Task ::
      (registerAndProcess env agg d
        { req with Task := { req.Task with QuorumThresholdPercentages := qtp } } qn qtp
        (durationOfSecs cfg.MinWaitSecs) (durationOfSecs cfg.TimeToExpirySecs)).calls := by
  unfold submitAfterSampling
  simp only [hd, hb, true_and, and_true]
  exact (registerAndProcess_spec env agg d _ qn qtp _ _).2.1

/-- The calls of lines 387-410 are those of the locked section, possibly followed by the one
`ProcessNewSignature`. -/
theorem registerAndProcess_initialize_calls (env : Env) (agg : Registry)
    (digest : TaskResponseDigest) (req : TaskRequest) (qn qtp : List Nat)
    (minWait timeToExpiry : Int) (a b : Nat) (qn' qtp' : List Nat) (mw tte : Int)
    (h : Call.InitializeNewTask a b qn' qtp' mw tte ∈
      (registerAndProcess env agg digest req qn qtp minWait timeToExpiry).calls) :
    qn' = qn ∧ qtp' = qtp := by
  obtain ⟨_, _, herr, hok⟩ := registerAndProcess_spec env agg digest req qn qtp minWait timeToExpiry
  have hsub : Call.InitializeNewTask a b qn' qtp' mw tte ∈
      (registerLocked env agg digest req qn qtp minWait timeToExpiry).calls := by
    cases he : (registerLocked env agg digest req qn qtp minWait timeToExpiry).err with
    | some e => rw [(herr e he).2] at h; exact h
    | none =>
      rw [(hok he).1] at h
      simp only [List.mem_append, List.mem_singleton, reduceCtorEq, or_false] at h
      exact h
  obtain ⟨a', b', hc⟩ := registerLocked_calls _ _ _ _ _ _ _ _ _ hsub
  simp only [Call.InitializeNewTask.injEq] at hc
  exact ⟨hc.2.2.1, hc.2.2.2.1⟩

/-- C10 (as amended): for a request that passes the sampling test, has a computable digest
and carries as many threshold percentages as quorum numbers, `submitStateHeader` builds the
threshold list without a store out of range; the list written back into the request and
passed to `InitializeNewTask` has exactly one entry per quorum number, each the configured
`Threshold` cut to 8 bits, which is the configured `Threshold` itself and at most 100
whenever the configured `Threshold` is at most 100. -/
theorem thresholds_one_per_quorum (env : Env) (cfg : Config) (agg : Registry)
    (req : TaskRequest) (d : TaskResponseDigest)
    (hpass : Call.Digest req.Task ∈ (submitStateHeader env cfg agg req).calls)
    (hd : env.Digest req.Task = Except.ok d)
    (hlen : req.Task.QuorumThresholdPercentages.length = req.Task.QuorumNumbers.length) :
    (∀ p, (submitStateHeader env cfg agg req).ret ≠ Ret.fault p) ∧
    (submitStateHeader env cfg agg req).req.Task.QuorumThresholdPercentages =
      List.replicate req.Task.QuorumNumbers.length (cfg.Threshold % 256) ∧
    (∀ a b qn qtp mw tte,
      Call.InitializeNewTask a b qn qtp mw tte ∈ (submitStateHeader env cfg agg req).calls →
      qn = req.Task.QuorumNumbers ∧
      qtp = List.replicate req.Task.QuorumNumbers.length (cfg.Threshold % 256)) ∧
    (cfg.Threshold ≤ 100 →
      ∀ p ∈ (submitStateHeader env cfg agg req).req.Task.QuorumThresholdPercentages,
        p = cfg.Threshold ∧ p ≤ 100) := by
  have hrest : submitStateHeader env cfg agg req = submitAfterSampling env cfg agg req := by
    rcases submitStateHeader_cases env cfg agg req with hskip | hrest
    · rw [hskip.1] at hpass; simp at hpass
    · exact hrest
  have hb := buildQuorums_equal_length cfg req.Task hlen
  simp only [toQuorumThresholdPercentage] at hb
  obtain ⟨hret, hreq, hcalls⟩ := submitAfterSampling_built env cfg agg req d _ _ hd hb
  rw [hrest]
  have hreq' : (submitAfterSampling env cfg agg req).req.Task.QuorumThresholdPercentages =
      List.replicate req.Task.QuorumNumbers.length (cfg.Threshold % 256) := by
    rw [hreq]
  refine ⟨fun p => ?_, hreq', ?_, fun hthr p hp => ?_⟩
  · rw [hret]
    exact registerAndProcess_ret _ _ _ _ _ _ _ _ p
  · intro a b qn qtp mw tte hm
    rw [hcalls] at hm
    simp only [List.mem_cons, reduceCtorEq, false_or] at hm
    exact registerAndProcess_initialize_calls _ _ _ _ _ _ _ _ _ _ _ _ _ _ hm
  · rw [hreq'] at hp
    have hp' := List.eq_of_mem_replicate hp
    have hmod : cfg.Threshold % 256 = cfg.Threshold := Nat.mod_eq_of_lt (by omega)
    rw [hp', hmod]
    exact ⟨rfl, hthr⟩

/-- C10 (as amended) on a request with two quorum numbers and two threshold entries, at
`Threshold` 67. -/
theorem thresholds_one_per_quorum_witness :
    (submitStateHeader acceptAll sampleConfig Registry.new
      (quorumRequest 7 [0, 1] [10, 20])).req.Task.QuorumThresholdPercentages = [67, 67] ∧
    Call.InitializeNewTask 0 7 [0, 1] [67, 67] 5000000000 60000000000 ∈
      (submitStateHeader acceptAll sampleConfig Registry.new
        (quorumRequest 7 [0, 1] [10, 20])).calls :=
  ⟨(thresholds_one_per_quorum acceptAll sampleConfig Registry.new
      (quorumRequest 7 [0, 1] [10, 20]) 7 (by decide) rfl rfl).2.1,
    by decide⟩

/-- C10 (counterexample): with the configured `Threshold` at 200, a request with one quorum
number and one threshold entry gets the list `[200]` written back and passed to
`InitializeNewTask`: an entry outside 0..100. With `Threshold` at 300 the entry is 44, not the
configured value. Besides, a request with one quorum number and no threshold entry makes
the store at line 381 go out of range, and one with two threshold entries yields a list
of two entries for its single quorum number. -/
theorem thresholds_not_always_one_per_quorum_in_range :
    (submitStateHeader acceptAll { sampleConfig with Threshold := 200 } Registry.new
      (quorumRequest 7 [0] [50])).req.Task.QuorumThresholdPercentages = [200] ∧
    Call.InitializeNewTask 0 7 [0] [200] 5000000000 60000000000 ∈
      (submitStateHeader acceptAll { sampleConfig with Threshold := 200 } Registry.new
        (quorumRequest 7 [0] [50])).calls ∧
    (submitStateHeader acceptAll { sampleConfig with Threshold := 300 } Registry.new
      (quorumRequest 7 [0] [50])).req.Task.QuorumThresholdPercentages = [44] ∧
    (submitStateHeader acceptAll sampleConfig Registry.new (quorumRequest 7 [0] [])).ret =
      Ret.fault Panic.indexOutOfRange ∧
    (submitStateHeader acceptAll sampleConfig Registry.new
      (quorumRequest 7 [0] [50, 50])).req.Task.QuorumThresholdPercentages = [67, 0] := by
  decide


/-! ## Theorems: the dispatch step and the submission -/

/-- The locked lookup-and-delete of `Start`: a registered digest yields its task and only
that digest leaves the map; an absent digest yields nil and nothing changes. The counter is
never touched, and afterwards the digest is absent. -/
theorem removeLocked_spec (agg : Registry) (d : TaskResponseDigest) :
    (removeLocked agg d).2 = mapGet agg.taskIndexMap d ∧
    (removeLocked agg d).1.taskIndexSeq = agg.taskIndexSeq ∧
    mapGet (removeLocked agg d).1.taskIndexMap d = none ∧
    (∀ d', d' ≠ d →
      mapGet (removeLocked agg d).1.taskIndexMap d' = mapGet agg.taskIndexMap d') ∧
    (mapGet agg.taskIndexMap d = none → (removeLocked agg d).1 = agg) ∧
    removeLocked (removeLocked agg d).1 d = ((removeLocked agg d).1, none) := by
  refine ⟨rfl, rfl, mapGet_mapDelete_self _ _, fun d' h => mapGet_mapDelete_other _ _ _ h,
    fun h => ?_, ?_⟩
  · simp only [removeLocked, mapDelete_of_absent _ _ h]
  · simp only [removeLocked, mapGet_mapDelete_self,
      mapDelete_of_absent _ _ (mapGet_mapDelete_self agg.taskIndexMap d)]

/-- C6 (failing input): on a registry without a task for digest 7, the dispatch step on a
response for digest 7 that carries no error finds the task absent, leaves the registry as it
is, and then panics: `sendAggregatedResponseToContract` reads `task.state` of the nil task
before `ConfirmState` is called. The same happens on the second of two dispatch steps for a
registered digest. Only a response that carries an error is handled without a panic. -/
theorem dispatch_of_absent_task_panics :
    dispatchStep acceptAll Registry.new (successResponse 7) =
      { ret := Ret.fault Panic.nilPointerDereference, agg := Registry.new, task := none,
        calls := [] } ∧
    (dispatchStep acceptAll oneTask (successResponse 7)).ret = Ret.ok ∧
    (dispatchStep acceptAll oneTask (successResponse 7)).task =
      some { state := sampleRequest 7, index := 0 } ∧
    dispatchStep acceptAll (dispatchStep acceptAll oneTask (successResponse 7)).agg
        (successResponse 7) =
      { ret := Ret.fault Panic.nilPointerDereference,
        agg := { taskIndexSeq := 1, taskIndexMap := [] }, task := none, calls := [] } ∧
    dispatchStep acceptAll Registry.new (failedResponse 7) =
      { ret := Ret.error "task expired", agg := Registry.new, task := none, calls := [] } := by
  decide

/-- What `sendAggregatedResponseToContract` does, case by case: a result with an error is
returned without a contract call; a result without error makes exactly one `ConfirmState`
call when the argument struct can be built and the task is not nil, and the outcome of
that call is returned; in the remaining cases the call panics before `ConfirmState`. It
never makes a second contract call. -/
theorem sendAggregatedResponseToContract_spec (env : Env) (task : Option Task)
    (resp : BlsAggregationServiceResponse) :
    (∀ e, resp.Err = some e →
      sendAggregatedResponseToContract env task resp = (Ret.error (logexTrace e), [])) ∧
    (∀ t nss, resp.Err = none → buildNonSignerStakesAndSignature resp = some nss →
      task = some t →
      (sendAggregatedResponseToContract env task resp).2 = [Call.ConfirmState t.state.Task nss] ∧
      (∀ e, env.ConfirmState t.state.Task nss = Except.error e →
        (sendAggregatedResponseToContract env task resp).1 =
          Ret.error (logexTrace (env.MultiProverError e))) ∧
      (∀ tx, env.ConfirmState t.state.Task nss = Except.ok tx →
        (sendAggregatedResponseToContract env task resp).1 = Ret.ok)) ∧
    (resp.Err = none → (buildNonSignerStakesAndSignature resp = none ∨ task = none) →
      sendAggregatedResponseToContract env task resp =
        (Ret.fault Panic.nilPointerDereference, [])) ∧
    (sendAggregatedResponseToContract env task resp).2.length ≤ 1 := by
  unfold sendAggregatedResponseToContract
  cases herr : resp.Err with
  | some e => simp
  | none =>
    cases hb : buildNonSignerStakesAndSignature resp with
    | none => simp
    | some nss =>
      cases task with
      | none => simp
      | some t =>
        cases hc : env.ConfirmState t.state.Task nss <;> simp [hc]

/-- The dispatch step on a result without error whose task is registered and whose argument
struct can be built: one `ConfirmState` call; when it fails the failure is what the step
returns, and the digest is gone from the map. -/
theorem dispatchStep_registered (env : Env) (agg : Registry)
    (resp : BlsAggregationServiceResponse) (t : Task) (nss : NonSignerStakesAndSignature)
    (herr : resp.Err = none) (hb : buildNonSignerStakesAndSignature resp = some nss)
    (hget : mapGet agg.taskIndexMap resp.TaskResponseDigest = some t) :
    (dispatchStep env agg resp).calls = [Call.ConfirmState t.state.Task nss] ∧
    (∀ e, env.ConfirmState t.state.Task nss = Except.error e →
      (dispatchStep env agg resp).ret = Ret.error (logexTrace (env.MultiProverError e))) ∧
    mapGet (dispatchStep env agg resp).agg.taskIndexMap resp.TaskResponseDigest = none := by
  obtain ⟨_, hsend, _, _⟩ := sendAggregatedResponseToContract_spec env
    (mapGet agg.taskIndexMap resp.TaskResponseDigest) resp
  obtain ⟨hcalls, hfail, _⟩ := hsend t nss herr hb hget
  exact ⟨hcalls, hfail, mapGet_mapDelete_self _ _⟩

/-- C8 (failing input): the result for digest 7 carries no error, and its points and signature
are present, but no task is registered for digest 7, so the task handed over is nil:
`sendAggregatedResponseToContract` panics at line 437 and `ConfirmState` is called zero
times, not once. With the task registered the same result makes exactly one `ConfirmState`
call, also when that call fails (its error is returned and nothing is retried); a result
that carries an error makes none. -/
theorem confirmState_not_called_for_absent_task :
    (successResponse 7).Err = none ∧
    buildNonSignerStakesAndSignature (successResponse 7) = some successProof ∧
    sendAggregatedResponseToContract acceptAll none (successResponse 7) =
      (Ret.fault Panic.nilPointerDereference, []) ∧
    (dispatchStep acceptAll Registry.new (successResponse 7)).calls = [] ∧
    dispatchStep acceptAll oneTask (successResponse 7) =
      { ret := Ret.ok, agg := { taskIndexSeq := 1, taskIndexMap := [] },
        task := some { state := sampleRequest 7, index := 0 },
        calls := [Call.ConfirmState (sampleRequest 7).Task successProof] } ∧
    dispatchStep rejectConfirm oneTask (successResponse 7) =
      { ret := Ret.error "execution reverted", agg := { taskIndexSeq := 1, taskIndexMap := [] },
        task := some { state := sampleRequest 7, index := 0 },
        calls := [Call.ConfirmState (sampleRequest 7).Task successProof] } ∧
    dispatchStep acceptAll oneTask (failedResponse 7) =
      { ret := Ret.error "task expired", agg := { taskIndexSeq := 1, taskIndexMap := [] },
        task := some { state := sampleRequest 7, index := 0 }, calls := [] } := by
  decide

/-- A result without error whose signature pointer is nil panics at line 430, before
`ConfirmState`, also when its task is registered. -/
theorem dispatch_of_unsigned_response_panics :
    dispatchStep acceptAll oneTask (unsignedResponse 7) =
      { ret := Ret.fault Panic.nilPointerDereference,
        agg := { taskIndexSeq := 1, taskIndexMap := [] },
        task := some { state := sampleRequest 7, index := 0 }, calls := [] } := by
  decide

end Aggregator
